import Mathlib

/-!
Shallow embedding of the B-tree map in `src/btree/cpp/btree_map.h`.

The C++ code is a template over key type `K`, value type `V`, branching
factor `B` and a comparator; the tests instantiate it with `int` keys,
`std::string` values and `DefaultCompare` (three-way comparison through
`std::less` / `std::greater`).  The embedding fixes `K = V = Nat` and keeps
`B` as an explicit `Nat` parameter of every operation.

A C++ `Node` holds three null-padded fixed-capacity arrays
(`keys[2B]`, `values[2B]`, `children[2B+1]`); all code paths keep the
occupied slots contiguous from index 0 (`Node::insert`, `Node::remove`,
`Node::split`, `Node::add_child` all shift to preserve this, and
`Node::size` scans from the back for the first occupied slot).  The
embedding therefore represents the occupied prefix of `keys`/`values` as
one list `kvs` of pairs and the occupied prefix of `children` as a list,
a slot holding `nullptr` corresponding to an index beyond the list's
length.  `std::optional` results become `Option`.
-/

/-- `DefaultCompare<K>::operator()` from btree_map.h: three-way comparison,
`1` if `lhs > rhs`, `-1` if `lhs < rhs`, `0` otherwise. -/
def DefaultCompare (lhs rhs : Nat) : Int :=
  if lhs > rhs then 1 else if lhs < rhs then -1 else 0

/-- `btree_map_private::Node<K, V, B>`: the ordered `(key, value)` entries
and the child pointers, each as the occupied prefix of the corresponding
null-padded C++ array. -/
inductive Node : Type where
  | mk (kvs : List (Nat × Nat)) (children : List Node)

/-- The occupied `(key, value)` slots of a node. -/
def Node.kvs : Node → List (Nat × Nat)
  | .mk e _ => e

/-- The non-null children of a node. -/
def Node.children : Node → List Node
  | .mk _ c => c

mutual
/-- Boolean structural equality of nodes, used to give `Node` decidable
equality (the `deriving` handler does not support nested inductives). -/
def Node.beq : Node → Node → Bool
  | .mk e1 c1, .mk e2 c2 => e1 == e2 && beqChildren c1 c2

def beqChildren : List Node → List Node → Bool
  | [], [] => true
  | _ :: _, [] => false
  | [], _ :: _ => false
  | a :: as, b :: bs => Node.beq a b && beqChildren as bs
end

/-- The keys of a node, in slot order. -/
def Node.keys (u : Node) : List Nat :=
  u.kvs.map Prod.fst

/-- `Node::size()`: the number of occupied key slots (the C++ scans from the
back for the first non-null `keys[i-1]`; since occupied slots are a prefix,
that is the length of `kvs`). -/
def Node.size (u : Node) : Nat :=
  u.kvs.length

/-- `Node::is_leaf()`: `children[0] == nullptr`, i.e. no children at all. -/
def Node.is_leaf (u : Node) : Bool :=
  u.children.isEmpty

/-- Ordered insertion into the key/value slots, the loop body of
`Node::insert`: skip slots whose key compares strictly below `k`
(`Compare{}(*k, *keys[i]) > 0`), then shift the rest right and place
`(k, v)`.  The C++ loop stops at slot `2B`; every call site has at most
`2B - 1` occupied slots, so the bound is never reached and the list
version inserts unconditionally. -/
def insertKV (k v : Nat) : List (Nat × Nat) → List (Nat × Nat)
  | [] => [(k, v)]
  | (k', v') :: rest =>
      if DefaultCompare k k' > 0 then (k', v') :: insertKV k v rest
      else (k, v) :: (k', v') :: rest

/-- `Node::insert(k, v)`: ordered insert of one element; children are
untouched. -/
def Node.insert (k v : Nat) (u : Node) : Node :=
  .mk (insertKV k v u.kvs) u.children

/-- Insertion of a child pointer at `index`, shifting the following
pointers right — the loop of `Node::add_child`.  (For an `index` beyond the
occupied slots the C++ would leave a null hole; no call site does that, and
the list version appends at the end.) -/
def insertChild : Nat → Node → List Node → List Node
  | 0, w, cs => w :: cs
  | _ + 1, w, [] => [w]
  | n + 1, w, c :: cs => c :: insertChild n w cs

/-- `Node::add_child(child, index)`. -/
def Node.add_child (child : Node) (index : Nat) (u : Node) : Node :=
  .mk u.kvs (insertChild index child u.children)

/-- `Node::remove(index)`: return the element at `index` and shift the
following elements left; children are untouched.  (For an out-of-range
index the C++ moves null pointers around; the embedding returns a dummy
element and leaves the list unchanged — no call site does that on a
well-formed tree.) -/
def Node.remove (index : Nat) (u : Node) : (Nat × Nat) × Node :=
  (u.kvs.getD index (0, 0), .mk (u.kvs.eraseIdx index) u.children)

/-- `Node::split()`: if `keys[2B-1]` is occupied (at least `2B` elements),
move the first `B` keys/values/children into a freshly created node and
keep the remaining ones (shifted to the front); otherwise return null and
change nothing.  The new node's `children[B]` is left null and the original
node keeps `children[B..2B]`, which is exactly the `take`/`drop` split of
the occupied prefix. -/
def Node.split (B : Nat) (u : Node) : Option Node × Node :=
  if u.kvs.length < 2 * B then (none, u)
  else
    (some (.mk (u.kvs.take B) (u.children.take B)),
     .mk (u.kvs.drop B) (u.children.drop B))

mutual
/-- `Node::height` is not in the C++ source; it is the depth of the deepest
node, used to state the height behaviour of `insert` (a leaf has height 1). -/
def Node.height : Node → Nat
  | .mk _ cs => 1 + heightList cs

def heightList : List Node → Nat
  | [] => 0
  | c :: cs => max c.height (heightList cs)
end

mutual
/-- Depths of all leaf nodes (nodes with no children), with the root at
depth `d`; used to state the balance invariant. -/
def Node.leafDepths (d : Nat) : Node → List Nat
  | .mk _ cs => if cs.isEmpty then [d] else leafDepthsList (d + 1) cs

def leafDepthsList (d : Nat) : List Node → List Nat
  | [] => []
  | c :: cs => c.leafDepths d ++ leafDepthsList d cs
end

/-- Horizontal, layer-by-layer concatenation of two breadth-first
accumulators: the C++ `bfs` appends into `result[layer]` when that layer
already exists and pushes a new layer otherwise. -/
def joinLayers : List (List (List (Nat × Nat))) → List (List (List (Nat × Nat))) →
    List (List (List (Nat × Nat)))
  | [], ys => ys
  | xs, [] => xs
  | x :: xs, y :: ys => (x ++ y) :: joinLayers xs ys

mutual
/-- `Node::bfs(layer, result)`: an empty node contributes nothing (and its
children are not visited); otherwise the node's key/value snapshot joins
layer 0 and the children's layers are appended below, left to right in
visiting order. -/
def Node.bfs : Node → List (List (List (Nat × Nat)))
  | .mk kvs cs => if kvs.isEmpty then [] else [kvs] :: bfsList cs

def bfsList : List Node → List (List (List (Nat × Nat)))
  | [] => []
  | c :: cs => joinLayers c.bfs (bfsList cs)
end

mutual
/-- `Node::preorder(result)`: for each slot `i`, visit `children[i]` (when
non-null) and then append `(keys[i], values[i])` (when occupied); with
contiguous slots this interleaves child subtrees with the node's own
elements. -/
def Node.preorder : Node → List (Nat × Nat)
  | .mk kvs cs => preorderSlots cs kvs

def preorderSlots : List Node → List (Nat × Nat) → List (Nat × Nat)
  | [], kvs => kvs
  | c :: cs, [] => c.preorder ++ preorderSlots cs []
  | c :: cs, kv :: kvs => c.preorder ++ kv :: preorderSlots cs kvs
end

/-- The loop of `BTreeMap::find_it` with an explicit iteration budget:
binary search over the null-padded `keys` array, a null slot comparing as
`+∞` (`cmp = -1`).  The budget starts at `hi - lo` and each iteration
shrinks the interval, so the `0` case is only reached when `hi = lo`,
where the C++ loop also stops and returns `lo`. -/
def find_it_loop (keys : List Nat) (k : Nat) : Nat → Nat → Nat → Int
  | 0, lo, _ => lo
  | fuel + 1, lo, hi =>
    if hi = lo then lo
    else
      let m := (hi + lo) / 2
      let cmp : Int := match keys.get? m with
        | none => -1
        | some km => DefaultCompare k km
      if cmp < 0 then find_it_loop keys k fuel lo m
      else if cmp > 0 then find_it_loop keys k fuel (m + 1) hi
      else -(Int.ofNat m + 1)

/-- `BTreeMap::find_it(keys, length, k)`: returns `-(m+1)` when `keys[m]`
equals `k` and otherwise the smallest index `lo` with `keys[lo] > k`
(possibly pointing at a null slot). -/
def find_it (keys : List Nat) (length : Nat) (k : Nat) : Int :=
  find_it_loop keys k length 0 length

mutual
/-- `BTreeMap::find_recursive(k, u)`: descend using `find_it`; on a match
return a copy of the stored value, on a null child report absence. -/
def find_recursive (B k : Nat) : Node → Option Nat
  | .mk kvs cs =>
    let i := find_it (Node.keys (.mk kvs cs)) (2 * B - 1) k
    if i < 0 then some ((kvs.getD (-(i + 1)).toNat (0, 0)).2)
    else if i.toNat < cs.length then find_child B k cs i.toNat
    else none

def find_child (B k : Nat) : List Node → Nat → Option Nat
  | [], _ => none
  | c :: _, 0 => find_recursive B k c
  | _ :: cs, n + 1 => find_child B k cs n
end

/-- `BTreeMap::find(key)`. -/
def BTreeMap.find (B k : Nat) (root : Node) : Option Nat :=
  find_recursive B k root

mutual
/-- `BTreeMap::add_recursive(k, v, u)` together with the list walk that
reaches `u->children[i]`.  On a duplicate key it returns null and changes
nothing; at a null child position (`u->children[i] == nullptr`, i.e. the
index is beyond the occupied children) it inserts into this node; otherwise
it recurses and, when the child was split, promotes the new sibling's
element at `B-1` into this node and links the sibling at position `i`.
Each branch finishes with `u->split()`. -/
def add_recursive (B k v : Nat) : Node → Option Node × Node
  | .mk kvs cs =>
    let i := find_it (Node.keys (.mk kvs cs)) (2 * B - 1) k
    if i < 0 then (none, .mk kvs cs)
    else if i.toNat < cs.length then
      match add_to_child B k v cs i.toNat with
      | (none, cs') => Node.split B (.mk kvs cs')
      | (some w, cs') =>
        let xw := Node.remove (B - 1) w
        Node.split B
          (Node.add_child xw.2 i.toNat (Node.insert xw.1.1 xw.1.2 (.mk kvs cs')))
    else
      Node.split B (Node.insert k v (.mk kvs cs))

def add_to_child (B k v : Nat) : List Node → Nat → Option Node × List Node
  | [], _ => (none, [])
  | c :: cs, 0 =>
    match add_recursive B k v c with
    | (w, c') => (w, c' :: cs)
  | c :: cs, n + 1 =>
    match add_to_child B k v cs n with
    | (w, cs') => (w, c :: cs')
end

/-- `BTreeMap::insert(key, value)`: run `add_recursive` from the root; when
it hands back a split-off node `w`, promote `w`'s element at `B-1` into a
brand-new root whose children are `w` and the old root, and return `true`;
otherwise return `false`. -/
def BTreeMap.insert (B k v : Nat) (root : Node) : Bool × Node :=
  match add_recursive B k v root with
  | (none, root') => (false, root')
  | (some w, root') =>
    let xw := Node.remove (B - 1) w
    (true, .mk [xw.1] [xw.2, root'])

/-- `BTreeMap::merge(parent, merge_to_idx, left_child, right_child)` where
`left_child = parent->children[merge_to_idx]` and
`right_child = parent->children[merge_to_idx + 1]` (true at both call
sites): pull the parent element at `merge_to_idx` down into the left child,
append the right child's keys/values/children after it (the C++ copies them
to slots `left->size()..`, which under the contiguous-slot discipline is
exactly list append), and shift the parent's children after `merge_to_idx`
forward one slot, dropping the right child. -/
def merge (parent : Node) (merge_to_idx : Nat) : Node :=
  let ep := Node.remove merge_to_idx parent
  let L := ep.2.children.getD merge_to_idx (.mk [] [])
  let R := ep.2.children.getD (merge_to_idx + 1) (.mk [] [])
  let L1 := Node.insert ep.1.1 ep.1.2 L
  let merged : Node := .mk (L1.kvs ++ R.kvs) (L1.children ++ R.children)
  .mk ep.2.kvs ((ep.2.children.set merge_to_idx merged).eraseIdx (merge_to_idx + 1))

/-- `BTreeMap::borrow_from_right(parent, child_idx, child, right_sibling)`:
take the right sibling's smallest element, swap it with the parent's
separator at `child_idx`, and push the old separator into the child. -/
def borrow_from_right (parent : Node) (child_idx : Nat) : Node :=
  let C := parent.children.getD child_idx (.mk [] [])
  let R := parent.children.getD (child_idx + 1) (.mk [] [])
  let eR := Node.remove 0 R
  let pP := Node.remove child_idx parent
  let parent1 := Node.insert eR.1.1 eR.1.2 pP.2
  let C' := Node.insert pP.1.1 pP.1.2 C
  .mk parent1.kvs ((parent1.children.set child_idx C').set (child_idx + 1) eR.2)

/-- `BTreeMap::borrow_from_left(parent, child_idx, child, left_sibling)`:
take the left sibling's largest element, swap it with the parent's
separator at `child_idx - 1`, and push the old separator into the child. -/
def borrow_from_left (parent : Node) (child_idx : Nat) : Node :=
  let C := parent.children.getD child_idx (.mk [] [])
  let L := parent.children.getD (child_idx - 1) (.mk [] [])
  let eL := Node.remove (L.size - 1) L
  let pP := Node.remove (child_idx - 1) parent
  let parent1 := Node.insert eL.1.1 eL.1.2 pP.2
  let C' := Node.insert pP.1.1 pP.1.2 C
  .mk parent1.kvs ((parent1.children.set (child_idx - 1) eL.2).set child_idx C')

/-- Size of the child at `idx`, 0 when the slot is null. -/
def sizeAt (parent : Node) (idx : Nat) : Nat :=
  ((parent.children.get? idx).map Node.size).getD 0

/-- `BTreeMap::check_child_underflow(parent, child, child_idx)` with
`child = parent->children[child_idx]`: when the child dropped below `B - 1`
elements, merge with the left sibling if it has at most `B` elements, else
merge with the right sibling if it has at most `B` elements, else borrow
from the left sibling if one exists, else borrow from the right sibling if
one exists. -/
def check_child_underflow (B : Nat) (parent : Node) (child_idx : Nat) : Node :=
  match parent.children.get? child_idx with
  | none => parent
  | some child =>
    if child.size < B - 1 then
      if child_idx ≠ 0 ∧ sizeAt parent (child_idx - 1) ≤ B then
        merge parent (child_idx - 1)
      else if (child_idx < 2 * B ∧ (parent.children.get? (child_idx + 1)).isSome) ∧
          sizeAt parent (child_idx + 1) ≤ B then
        merge parent child_idx
      else if child_idx ≠ 0 then
        borrow_from_left parent child_idx
      else if child_idx < 2 * B ∧ (parent.children.get? (child_idx + 1)).isSome then
        borrow_from_right parent child_idx
      else parent
    else parent

mutual
/-- `BTreeMap::remove_smallest(u)` and `BTreeMap::erase_recursive(k, u)`,
with the list walks that reach `u->children[i]`.  `remove_smallest` takes
the first element of the leftmost leaf and fixes underflow on the way out.
`erase_recursive`, when the key sits in this node, removes it and — unless
this node is a leaf — refills the hole with the smallest element of
`children[i + 1]`, then checks that child for underflow; when the key may
sit deeper it recurses into `children[i]` and checks that child for
underflow if something was removed.  (When the key is found in a non-leaf
node whose `children[i + 1]` slot is null the C++ dereferences a null
pointer; that situation is unreachable on a well-formed tree and the
embedding then skips the refill.) -/
def remove_smallest (B : Nat) : Node → (Nat × Nat) × Node
  | .mk kvs [] => ((kvs.getD 0 (0, 0)), .mk (kvs.eraseIdx 0) [])
  | .mk kvs (c :: cs) =>
    match remove_smallest B c with
    | (e, c') => (e, check_child_underflow B (.mk kvs (c' :: cs)) 0)

def erase_recursive (B k : Nat) : Node → Option Nat × Node
  | .mk kvs cs =>
    let i := find_it (Node.keys (.mk kvs cs)) (2 * B - 1) k
    if i < 0 then
      let idx := (-(i + 1)).toNat
      let e := kvs.getD idx (0, 0)
      let kvs1 := kvs.eraseIdx idx
      if cs.isEmpty then (some e.2, .mk kvs1 cs)
      else if idx + 1 < cs.length then
        match remove_smallest_at B cs (idx + 1) with
        | (borrow, cs') =>
          (some e.2,
           check_child_underflow B (.mk (insertKV borrow.1 borrow.2 kvs1) cs') (idx + 1))
      else (some e.2, .mk kvs1 cs)
    else if i.toNat < cs.length then
      match erase_in_child B k cs i.toNat with
      | (some v, cs') =>
        (some v, check_child_underflow B (.mk kvs cs') i.toNat)
      | (none, cs') => (none, .mk kvs cs')
    else (none, .mk kvs cs)

def remove_smallest_at (B : Nat) : List Node → Nat → (Nat × Nat) × List Node
  | [], _ => ((0, 0), [])
  | c :: cs, 0 =>
    match remove_smallest B c with
    | (e, c') => (e, c' :: cs)
  | c :: cs, n + 1 =>
    match remove_smallest_at B cs n with
    | (e, cs') => (e, c :: cs')

def erase_in_child (B k : Nat) : List Node → Nat → Option Nat × List Node
  | [], _ => (none, [])
  | c :: cs, 0 =>
    match erase_recursive B k c with
    | (r, c') => (r, c' :: cs)
  | c :: cs, n + 1 =>
    match erase_in_child B k cs n with
    | (r, cs') => (r, c :: cs')
end

/-- `BTreeMap::erase(key)`: run `erase_recursive` from the root and, when
the root ends up empty but still has a first child, make that child the new
root. -/
def BTreeMap.erase (B k : Nat) (root : Node) : Option Nat × Node :=
  match erase_recursive B k root with
  | (ret, root') =>
    match root' with
    | .mk [] (c :: _) => (ret, c)
    | r => (ret, r)

/-- A public operation against the container. -/
inductive Op : Type where
  | ins (k v : Nat)
  | del (k : Nat)
deriving DecidableEq

/-- Apply one public operation, keeping only the tree. -/
def applyOp (B : Nat) (t : Node) : Op → Node
  | .ins k v => (BTreeMap.insert B k v t).2
  | .del k => (BTreeMap.erase B k t).2

/-- Run a sequence of public operations against a freshly constructed map
(`BTreeMap()` allocates one empty node as root). -/
def runOps (B : Nat) (ops : List Op) : Node :=
  ops.foldl (applyOp B) (.mk [] [])

/-- The rebalancing rules of `check_child_underflow` written out with the
sibling-size tests made explicit on the borrow branches, in the order the
code applies them: merge into an existing left sibling of size `≤ B`, else
merge an existing right sibling of size `≤ B`, else borrow from an existing
left sibling (which then necessarily has size `> B`), else borrow from an
existing right sibling (which then necessarily has size `> B`). -/
def checkChildUnderflowOrdered (B : Nat) (parent : Node) (child_idx : Nat) : Node :=
  match parent.children.get? child_idx with
  | none => parent
  | some child =>
    if child.size < B - 1 then
      if child_idx ≠ 0 ∧ sizeAt parent (child_idx - 1) ≤ B then
        merge parent (child_idx - 1)
      else if (child_idx < 2 * B ∧ (parent.children.get? (child_idx + 1)).isSome) ∧
          sizeAt parent (child_idx + 1) ≤ B then
        merge parent child_idx
      else if child_idx ≠ 0 ∧ B < sizeAt parent (child_idx - 1) then
        borrow_from_left parent child_idx
      else if (child_idx < 2 * B ∧ (parent.children.get? (child_idx + 1)).isSome) ∧
          B < sizeAt parent (child_idx + 1) then
        borrow_from_right parent child_idx
      else parent
    else parent

/-- The rebalancing rules in the priority order stated by the specification:
the two merge rules first, then borrow from a right sibling of size `> B`,
and only last borrow from a left sibling of size `> B`. -/
def checkChildUnderflowSpecOrder (B : Nat) (parent : Node) (child_idx : Nat) : Node :=
  match parent.children.get? child_idx with
  | none => parent
  | some child =>
    if child.size < B - 1 then
      if child_idx ≠ 0 ∧ sizeAt parent (child_idx - 1) ≤ B then
        merge parent (child_idx - 1)
      else if (child_idx < 2 * B ∧ (parent.children.get? (child_idx + 1)).isSome) ∧
          sizeAt parent (child_idx + 1) ≤ B then
        merge parent child_idx
      else if (child_idx < 2 * B ∧ (parent.children.get? (child_idx + 1)).isSome) ∧
          B < sizeAt parent (child_idx + 1) then
        borrow_from_right parent child_idx
      else if child_idx ≠ 0 ∧ B < sizeAt parent (child_idx - 1) then
        borrow_from_left parent child_idx
      else parent
    else parent

mutual
/-- Occupancy check for a non-root subtree, following §3 of the spec:
`B - 1 ≤ size ≤ 2B - 1`, and for an internal node between `B` and `2B`
children, recursively at every node of the subtree. -/
def occupancy (B : Nat) : Node → Bool
  | .mk kvs cs =>
    decide (B - 1 ≤ kvs.length) && decide (kvs.length ≤ 2 * B - 1) &&
    (cs.isEmpty || (decide (B ≤ cs.length) && decide (cs.length ≤ 2 * B))) &&
    occupancyList B cs

def occupancyList (B : Nat) : List Node → Bool
  | [] => true
  | c :: cs => occupancy B c && occupancyList B cs
end

/-- Occupancy check for the whole tree: the root itself may hold between
`0` and `2B - 1` keys, every other node must pass `occupancy`. -/
def rootOccupancy (B : Nat) (root : Node) : Bool :=
  decide (root.size ≤ 2 * B - 1) && occupancyList B root.children

/-- The insertion phase of `algorithm_coverage_tests` in
`src/btree/cpp/test/btree_map_test.cpp` with `B_FACTOR = 3`: keys
`i*(2B-1)+j` for `i` in `0..10`, inner to the loop over `j` in `0..2B`,
each with value `key + 1` (the C++ stores `std::to_string(key + 1)`). -/
def c3insertOps : List Op :=
  (List.range 6).flatMap (fun j => (List.range 10).map (fun i =>
    Op.ins (i * 5 + j) (i * 5 + j + 1)))

/-- The tree built by the `algorithm_coverage_tests` insertion phase. -/
def c3tree : Node :=
  runOps 3 c3insertOps

/-- A sequence of public operations with `B = 2`: insert keys
`10, 20, ..., 120` (values `key + 1`), then erase key `10`.  The erase
merges the two leftmost leaves, which underflows the internal node above
them, and the root then borrows from that node's right sibling — an
internal node — through `borrow_from_right`, which moves a key but no
child pointer. -/
def bugOps : List Op :=
  ((List.range 12).map (fun i => Op.ins ((i + 1) * 10) ((i + 1) * 10 + 1))) ++
    [Op.del 10]

/-- The (corrupted) tree left by `bugOps`. -/
def bugTree : Node :=
  runOps 2 bugOps

/-- `bugOps` followed by three more inserts that land in the corrupted
internal node and split it into a childless node one level above the other
leaves. -/
def c8ops : List Op :=
  bugOps ++ [Op.ins 45 46, Op.ins 50 51, Op.ins 55 56]

/-- The tree left by `c8ops`. -/
def c8tree : Node :=
  runOps 2 c8ops

/-- A sequence of public operations with `B = 2` that builds a root with
two separator keys over three leaves of sizes 3, 1, 3. -/
def c2ops : List Op :=
  [Op.ins 10 11, Op.ins 20 21, Op.ins 30 31, Op.ins 40 41, Op.ins 50 51,
   Op.ins 60 61, Op.ins 5 6, Op.ins 15 16, Op.ins 70 71]

/-- The tree built by `c2ops`: root `{20, 40}` over leaves `{5, 10, 15}`,
`{30}`, `{50, 60, 70}`. -/
def c2tree : Node :=
  runOps 2 c2ops

/-- The parent node on which erasing key `30` from `c2tree` triggers the
underflow check: the middle leaf has just lost its only key and both
siblings have size `3 > B`, so no merge applies and both borrow rules are
enabled. -/
def c2parent : Node :=
  .mk [(20, 21), (40, 41)]
    [.mk [(5, 6), (10, 11), (15, 16)] [], .mk [] [],
     .mk [(50, 51), (60, 61), (70, 71)] []]

/-- Joint shape of the height bookkeeping for `add_recursive` and
`Node.split`: when no split-off node is returned the result keeps height
`H`; when one is returned the two pieces reach height `H` together. -/
def HeightOut (H : Nat) : Option Node × Node → Prop
  | (none, u') => u'.height = H
  | (some w, u') => max w.height u'.height = H

/-- `HeightOut` for the child-list walk `add_to_child`. -/
def HeightOutL (H : Nat) : Option Node × List Node → Prop
  | (none, cs') => heightList cs' = H
  | (some w, cs') => max w.height (heightList cs') = H

/-- The strict-ascent check of `check_btree_sanity` in
`src/btree/cpp/test/btree_map_test.cpp`: every element of the preorder
sequence is strictly below its successor. -/
def check_btree_sanity : List Nat → Bool
  | [] => true
  | [_] => true
  | a :: b :: rest => decide (a < b) && check_btree_sanity (b :: rest)

/-- Whether all entries of a list are equal; used to state the balance
invariant over `Node.leafDepths`. -/
def allSame : List Nat → Bool
  | [] => true
  | [_] => true
  | a :: b :: rest => decide (a = b) && allSame (b :: rest)

/-- Structural induction over `Node` and its child lists, packaged from the
recursor of the nested inductive. -/
theorem node_ind (P : Node → Prop) (Q : List Node → Prop)
    (h1 : ∀ kvs cs, Q cs → P (.mk kvs cs))
    (hnil : Q [])
    (hcons : ∀ c cs, P c → Q cs → Q (c :: cs)) :
    ∀ u, P u :=
  fun u => Node.rec (motive_1 := P) (motive_2 := Q) h1 hnil hcons u

theorem beq_iff : ∀ a b : Node, (Node.beq a b = true) ↔ a = b := by
  intro a
  induction a using node_ind
    (Q := fun as => ∀ bs, (beqChildren as bs = true) ↔ as = bs) with
  | h1 kvs cs ihQ =>
    intro b
    cases b with
    | mk kvs' cs' =>
      simp [Node.beq, ihQ, Bool.and_eq_true, beq_iff_eq]
  | hnil =>
    rename_i bs
    cases bs <;> simp [beqChildren]
  | hcons c cs ihP ihQ =>
    rename_i bs
    cases bs with
    | nil => simp [beqChildren]
    | cons b bs => simp [beqChildren, ihP, ihQ]

instance : DecidableEq Node :=
  fun a b => decidable_of_iff (Node.beq a b = true) (beq_iff a b)

theorem height_mk (kvs : List (Nat × Nat)) (cs : List Node) :
    Node.height (.mk kvs cs) = 1 + heightList cs := by
  simp [Node.height]

theorem heightList_cons (c : Node) (cs : List Node) :
    heightList (c :: cs) = max c.height (heightList cs) := by
  simp [heightList]

theorem heightList_nil : heightList [] = 0 := by
  simp [heightList]

theorem heightList_append (xs ys : List Node) :
    heightList (xs ++ ys) = max (heightList xs) (heightList ys) := by
  induction xs with
  | nil => simp [heightList]
  | cons c cs ih =>
    simp only [List.cons_append, heightList_cons, ih]
    omega

theorem heightList_insertChild (idx : Nat) (w : Node) (cs : List Node) :
    heightList (insertChild idx w cs) = max w.height (heightList cs) := by
  induction cs generalizing idx with
  | nil => cases idx <;> simp [insertChild, heightList]
  | cons c cs ih =>
    cases idx with
    | zero => simp [insertChild, heightList_cons]
    | succ n =>
      simp only [insertChild, heightList_cons, ih]
      omega

theorem remove_height (i : Nat) (u : Node) :
    ((Node.remove i u).2).height = u.height := by
  cases u
  simp [Node.remove, Node.kvs, Node.children, height_mk]

theorem insert_height (k v : Nat) (u : Node) :
    (Node.insert k v u).height = u.height := by
  cases u
  simp [Node.insert, Node.kvs, Node.children, height_mk]

theorem split_HeightOut (B : Nat) (u : Node) :
    HeightOut u.height (Node.split B u) := by
  cases u with
  | mk kvs cs =>
    unfold Node.split
    split_ifs with h
    · simp [HeightOut]
    · simp only [HeightOut, Node.kvs, Node.children, height_mk]
      have happ := heightList_append (cs.take B) (cs.drop B)
      rw [List.take_append_drop] at happ
      omega

theorem add_recursive_HeightOut (B k v : Nat) : ∀ u : Node,
    HeightOut u.height (add_recursive B k v u) := by
  intro u
  induction u using node_ind
    (Q := fun cs => ∀ idx, HeightOutL (heightList cs) (add_to_child B k v cs idx)) with
  | h1 kvs cs ihQ =>
    simp only [add_recursive]
    by_cases hi : find_it (Node.keys (.mk kvs cs)) (2 * B - 1) k < 0
    · simp only [if_pos hi, HeightOut]
    · simp only [if_neg hi]
      by_cases hlen : (find_it (Node.keys (.mk kvs cs)) (2 * B - 1) k).toNat < cs.length
      · simp only [if_pos hlen]
        rcases hac : add_to_child B k v cs
            (find_it (Node.keys (.mk kvs cs)) (2 * B - 1) k).toNat with ⟨w?, cs'⟩
        have hQ := ihQ (find_it (Node.keys (.mk kvs cs)) (2 * B - 1) k).toNat
        rw [hac] at hQ
        cases w? with
        | none =>
          simp only [HeightOutL] at hQ
          have hs := split_HeightOut B (.mk kvs cs')
          have hh : Node.height (.mk kvs cs') = Node.height (.mk kvs cs) := by
            simp [height_mk, hQ]
          rwa [hh] at hs
        | some w =>
          simp only [HeightOutL] at hQ
          have hs := split_HeightOut B
            (Node.add_child (Node.remove (B - 1) w).2
              (find_it (Node.keys (.mk kvs cs)) (2 * B - 1) k).toNat
              (Node.insert (Node.remove (B - 1) w).1.1 (Node.remove (B - 1) w).1.2
                (.mk kvs cs')))
          have hh : (Node.add_child (Node.remove (B - 1) w).2
              (find_it (Node.keys (.mk kvs cs)) (2 * B - 1) k).toNat
              (Node.insert (Node.remove (B - 1) w).1.1 (Node.remove (B - 1) w).1.2
                (.mk kvs cs'))).height = Node.height (.mk kvs cs) := by
            simp [Node.add_child, Node.insert, Node.kvs, Node.children, height_mk,
              heightList_insertChild, remove_height, hQ]
          rwa [hh] at hs
      · simp only [if_neg hlen]
        have hs := split_HeightOut B (Node.insert k v (.mk kvs cs))
        rwa [insert_height] at hs
  | hnil =>
    rename_i idx
    cases idx <;> simp [add_to_child, HeightOutL, heightList]
  | hcons c cs ihP ihQ =>
    rename_i idx
    cases idx with
    | zero =>
      simp only [add_to_child]
      rcases har : add_recursive B k v c with ⟨w?, c'⟩
      rw [har] at ihP
      cases w? with
      | none =>
        simp only [HeightOut] at ihP
        simp [HeightOutL, heightList_cons, ihP]
      | some w =>
        simp only [HeightOut] at ihP
        simp only [HeightOutL, heightList_cons]
        omega
    | succ n =>
      simp only [add_to_child]
      rcases hac : add_to_child B k v cs n with ⟨w?, cs'⟩
      have hQ := ihQ n
      rw [hac] at hQ
      cases w? with
      | none =>
        simp only [HeightOutL] at hQ
        simp [HeightOutL, heightList_cons, hQ]
      | some w =>
        simp only [HeightOutL] at hQ
        simp only [HeightOutL, heightList_cons]
        omega
/-- `bugTree` evaluated: the operations of `bugOps` applied step by step. -/
theorem bugTree_eq :
    bugTree =
      (.mk [(60, 61)] [(.mk [(40, 41)] [(.mk [(20, 21), (30, 31)] [])]), (.mk [(80, 81), (100, 101)] [(.mk [(50, 51)] []), (.mk [(70, 71)] []), (.mk [(90, 91)] []), (.mk [(110, 111), (120, 121)] [])])]) := by
  have e1 : applyOp 2 (.mk [] []) (Op.ins 10 11) =
      (.mk [(10, 11)] []) := by decide
  have e2 : applyOp 2 (.mk [(10, 11)] []) (Op.ins 20 21) =
      (.mk [(10, 11), (20, 21)] []) := by decide
  have e3 : applyOp 2 (.mk [(10, 11), (20, 21)] []) (Op.ins 30 31) =
      (.mk [(10, 11), (20, 21), (30, 31)] []) := by decide
  have e4 : applyOp 2 (.mk [(10, 11), (20, 21), (30, 31)] []) (Op.ins 40 41) =
      (.mk [(20, 21)] [(.mk [(10, 11)] []), (.mk [(30, 31), (40, 41)] [])]) := by decide
  have e5 : applyOp 2 (.mk [(20, 21)] [(.mk [(10, 11)] []), (.mk [(30, 31), (40, 41)] [])]) (Op.ins 50 51) =
      (.mk [(20, 21)] [(.mk [(10, 11)] []), (.mk [(30, 31), (40, 41), (50, 51)] [])]) := by decide
  have e6 : applyOp 2 (.mk [(20, 21)] [(.mk [(10, 11)] []), (.mk [(30, 31), (40, 41), (50, 51)] [])]) (Op.ins 60 61) =
      (.mk [(20, 21), (40, 41)] [(.mk [(10, 11)] []), (.mk [(30, 31)] []), (.mk [(50, 51), (60, 61)] [])]) := by decide
  have e7 : applyOp 2 (.mk [(20, 21), (40, 41)] [(.mk [(10, 11)] []), (.mk [(30, 31)] []), (.mk [(50, 51), (60, 61)] [])]) (Op.ins 70 71) =
      (.mk [(20, 21), (40, 41)] [(.mk [(10, 11)] []), (.mk [(30, 31)] []), (.mk [(50, 51), (60, 61), (70, 71)] [])]) := by decide
  have e8 : applyOp 2 (.mk [(20, 21), (40, 41)] [(.mk [(10, 11)] []), (.mk [(30, 31)] []), (.mk [(50, 51), (60, 61), (70, 71)] [])]) (Op.ins 80 81) =
      (.mk [(20, 21), (40, 41), (60, 61)] [(.mk [(10, 11)] []), (.mk [(30, 31)] []), (.mk [(50, 51)] []), (.mk [(70, 71), (80, 81)] [])]) := by decide
  have e9 : applyOp 2 (.mk [(20, 21), (40, 41), (60, 61)] [(.mk [(10, 11)] []), (.mk [(30, 31)] []), (.mk [(50, 51)] []), (.mk [(70, 71), (80, 81)] [])]) (Op.ins 90 91) =
      (.mk [(20, 21), (40, 41), (60, 61)] [(.mk [(10, 11)] []), (.mk [(30, 31)] []), (.mk [(50, 51)] []), (.mk [(70, 71), (80, 81), (90, 91)] [])]) := by decide
  have e10 : applyOp 2 (.mk [(20, 21), (40, 41), (60, 61)] [(.mk [(10, 11)] []), (.mk [(30, 31)] []), (.mk [(50, 51)] []), (.mk [(70, 71), (80, 81), (90, 91)] [])]) (Op.ins 100 101) =
      (.mk [(40, 41)] [(.mk [(20, 21)] [(.mk [(10, 11)] []), (.mk [(30, 31)] [])]), (.mk [(60, 61), (80, 81)] [(.mk [(50, 51)] []), (.mk [(70, 71)] []), (.mk [(90, 91), (100, 101)] [])])]) := by decide
  have e11 : applyOp 2 (.mk [(40, 41)] [(.mk [(20, 21)] [(.mk [(10, 11)] []), (.mk [(30, 31)] [])]), (.mk [(60, 61), (80, 81)] [(.mk [(50, 51)] []), (.mk [(70, 71)] []), (.mk [(90, 91), (100, 101)] [])])]) (Op.ins 110 111) =
      (.mk [(40, 41)] [(.mk [(20, 21)] [(.mk [(10, 11)] []), (.mk [(30, 31)] [])]), (.mk [(60, 61), (80, 81)] [(.mk [(50, 51)] []), (.mk [(70, 71)] []), (.mk [(90, 91), (100, 101), (110, 111)] [])])]) := by decide
  have e12 : applyOp 2 (.mk [(40, 41)] [(.mk [(20, 21)] [(.mk [(10, 11)] []), (.mk [(30, 31)] [])]), (.mk [(60, 61), (80, 81)] [(.mk [(50, 51)] []), (.mk [(70, 71)] []), (.mk [(90, 91), (100, 101), (110, 111)] [])])]) (Op.ins 120 121) =
      (.mk [(40, 41)] [(.mk [(20, 21)] [(.mk [(10, 11)] []), (.mk [(30, 31)] [])]), (.mk [(60, 61), (80, 81), (100, 101)] [(.mk [(50, 51)] []), (.mk [(70, 71)] []), (.mk [(90, 91)] []), (.mk [(110, 111), (120, 121)] [])])]) := by decide
  have e13 : applyOp 2 (.mk [(40, 41)] [(.mk [(20, 21)] [(.mk [(10, 11)] []), (.mk [(30, 31)] [])]), (.mk [(60, 61), (80, 81), (100, 101)] [(.mk [(50, 51)] []), (.mk [(70, 71)] []), (.mk [(90, 91)] []), (.mk [(110, 111), (120, 121)] [])])]) (Op.del 10) =
      (.mk [(60, 61)] [(.mk [(40, 41)] [(.mk [(20, 21), (30, 31)] [])]), (.mk [(80, 81), (100, 101)] [(.mk [(50, 51)] []), (.mk [(70, 71)] []), (.mk [(90, 91)] []), (.mk [(110, 111), (120, 121)] [])])]) := by decide
  have hops : bugOps = [(Op.ins 10 11),
      (Op.ins 20 21),
      (Op.ins 30 31),
      (Op.ins 40 41),
      (Op.ins 50 51),
      (Op.ins 60 61),
      (Op.ins 70 71),
      (Op.ins 80 81),
      (Op.ins 90 91),
      (Op.ins 100 101),
      (Op.ins 110 111),
      (Op.ins 120 121),
      (Op.del 10)] := by decide
  show runOps 2 bugOps = _
  rw [hops]
  simp only [runOps, List.foldl_cons, List.foldl_nil]
  rw [e1, e2, e3, e4, e5, e6, e7, e8, e9, e10, e11, e12, e13]

/-- `c8tree` evaluated: the operations of `c8ops` applied step by step. -/
theorem c8tree_eq :
    c8tree =
      (.mk [(45, 46), (60, 61)] [(.mk [(40, 41)] [(.mk [(20, 21), (30, 31)] [])]), (.mk [(50, 51), (55, 56)] []), (.mk [(80, 81), (100, 101)] [(.mk [(50, 51)] []), (.mk [(70, 71)] []), (.mk [(90, 91)] []), (.mk [(110, 111), (120, 121)] [])])]) := by
  have e1 : applyOp 2 (.mk [] []) (Op.ins 10 11) =
      (.mk [(10, 11)] []) := by decide
  have e2 : applyOp 2 (.mk [(10, 11)] []) (Op.ins 20 21) =
      (.mk [(10, 11), (20, 21)] []) := by decide
  have e3 : applyOp 2 (.mk [(10, 11), (20, 21)] []) (Op.ins 30 31) =
      (.mk [(10, 11), (20, 21), (30, 31)] []) := by decide
  have e4 : applyOp 2 (.mk [(10, 11), (20, 21), (30, 31)] []) (Op.ins 40 41) =
      (.mk [(20, 21)] [(.mk [(10, 11)] []), (.mk [(30, 31), (40, 41)] [])]) := by decide
  have e5 : applyOp 2 (.mk [(20, 21)] [(.mk [(10, 11)] []), (.mk [(30, 31), (40, 41)] [])]) (Op.ins 50 51) =
      (.mk [(20, 21)] [(.mk [(10, 11)] []), (.mk [(30, 31), (40, 41), (50, 51)] [])]) := by decide
  have e6 : applyOp 2 (.mk [(20, 21)] [(.mk [(10, 11)] []), (.mk [(30, 31), (40, 41), (50, 51)] [])]) (Op.ins 60 61) =
      (.mk [(20, 21), (40, 41)] [(.mk [(10, 11)] []), (.mk [(30, 31)] []), (.mk [(50, 51), (60, 61)] [])]) := by decide
  have e7 : applyOp 2 (.mk [(20, 21), (40, 41)] [(.mk [(10, 11)] []), (.mk [(30, 31)] []), (.mk [(50, 51), (60, 61)] [])]) (Op.ins 70 71) =
      (.mk [(20, 21), (40, 41)] [(.mk [(10, 11)] []), (.mk [(30, 31)] []), (.mk [(50, 51), (60, 61), (70, 71)] [])]) := by decide
  have e8 : applyOp 2 (.mk [(20, 21), (40, 41)] [(.mk [(10, 11)] []), (.mk [(30, 31)] []), (.mk [(50, 51), (60, 61), (70, 71)] [])]) (Op.ins 80 81) =
      (.mk [(20, 21), (40, 41), (60, 61)] [(.mk [(10, 11)] []), (.mk [(30, 31)] []), (.mk [(50, 51)] []), (.mk [(70, 71), (80, 81)] [])]) := by decide
  have e9 : applyOp 2 (.mk [(20, 21), (40, 41), (60, 61)] [(.mk [(10, 11)] []), (.mk [(30, 31)] []), (.mk [(50, 51)] []), (.mk [(70, 71), (80, 81)] [])]) (Op.ins 90 91) =
      (.mk [(20, 21), (40, 41), (60, 61)] [(.mk [(10, 11)] []), (.mk [(30, 31)] []), (.mk [(50, 51)] []), (.mk [(70, 71), (80, 81), (90, 91)] [])]) := by decide
  have e10 : applyOp 2 (.mk [(20, 21), (40, 41), (60, 61)] [(.mk [(10, 11)] []), (.mk [(30, 31)] []), (.mk [(50, 51)] []), (.mk [(70, 71), (80, 81), (90, 91)] [])]) (Op.ins 100 101) =
      (.mk [(40, 41)] [(.mk [(20, 21)] [(.mk [(10, 11)] []), (.mk [(30, 31)] [])]), (.mk [(60, 61), (80, 81)] [(.mk [(50, 51)] []), (.mk [(70, 71)] []), (.mk [(90, 91), (100, 101)] [])])]) := by decide
  have e11 : applyOp 2 (.mk [(40, 41)] [(.mk [(20, 21)] [(.mk [(10, 11)] []), (.mk [(30, 31)] [])]), (.mk [(60, 61), (80, 81)] [(.mk [(50, 51)] []), (.mk [(70, 71)] []), (.mk [(90, 91), (100, 101)] [])])]) (Op.ins 110 111) =
      (.mk [(40, 41)] [(.mk [(20, 21)] [(.mk [(10, 11)] []), (.mk [(30, 31)] [])]), (.mk [(60, 61), (80, 81)] [(.mk [(50, 51)] []), (.mk [(70, 71)] []), (.mk [(90, 91), (100, 101), (110, 111)] [])])]) := by decide
  have e12 : applyOp 2 (.mk [(40, 41)] [(.mk [(20, 21)] [(.mk [(10, 11)] []), (.mk [(30, 31)] [])]), (.mk [(60, 61), (80, 81)] [(.mk [(50, 51)] []), (.mk [(70, 71)] []), (.mk [(90, 91), (100, 101), (110, 111)] [])])]) (Op.ins 120 121) =
      (.mk [(40, 41)] [(.mk [(20, 21)] [(.mk [(10, 11)] []), (.mk [(30, 31)] [])]), (.mk [(60, 61), (80, 81), (100, 101)] [(.mk [(50, 51)] []), (.mk [(70, 71)] []), (.mk [(90, 91)] []), (.mk [(110, 111), (120, 121)] [])])]) := by decide
  have e13 : applyOp 2 (.mk [(40, 41)] [(.mk [(20, 21)] [(.mk [(10, 11)] []), (.mk [(30, 31)] [])]), (.mk [(60, 61), (80, 81), (100, 101)] [(.mk [(50, 51)] []), (.mk [(70, 71)] []), (.mk [(90, 91)] []), (.mk [(110, 111), (120, 121)] [])])]) (Op.del 10) =
      (.mk [(60, 61)] [(.mk [(40, 41)] [(.mk [(20, 21), (30, 31)] [])]), (.mk [(80, 81), (100, 101)] [(.mk [(50, 51)] []), (.mk [(70, 71)] []), (.mk [(90, 91)] []), (.mk [(110, 111), (120, 121)] [])])]) := by decide
  have e14 : applyOp 2 (.mk [(60, 61)] [(.mk [(40, 41)] [(.mk [(20, 21), (30, 31)] [])]), (.mk [(80, 81), (100, 101)] [(.mk [(50, 51)] []), (.mk [(70, 71)] []), (.mk [(90, 91)] []), (.mk [(110, 111), (120, 121)] [])])]) (Op.ins 45 46) =
      (.mk [(60, 61)] [(.mk [(40, 41), (45, 46)] [(.mk [(20, 21), (30, 31)] [])]), (.mk [(80, 81), (100, 101)] [(.mk [(50, 51)] []), (.mk [(70, 71)] []), (.mk [(90, 91)] []), (.mk [(110, 111), (120, 121)] [])])]) := by decide
  have e15 : applyOp 2 (.mk [(60, 61)] [(.mk [(40, 41), (45, 46)] [(.mk [(20, 21), (30, 31)] [])]), (.mk [(80, 81), (100, 101)] [(.mk [(50, 51)] []), (.mk [(70, 71)] []), (.mk [(90, 91)] []), (.mk [(110, 111), (120, 121)] [])])]) (Op.ins 50 51) =
      (.mk [(60, 61)] [(.mk [(40, 41), (45, 46), (50, 51)] [(.mk [(20, 21), (30, 31)] [])]), (.mk [(80, 81), (100, 101)] [(.mk [(50, 51)] []), (.mk [(70, 71)] []), (.mk [(90, 91)] []), (.mk [(110, 111), (120, 121)] [])])]) := by decide
  have e16 : applyOp 2 (.mk [(60, 61)] [(.mk [(40, 41), (45, 46), (50, 51)] [(.mk [(20, 21), (30, 31)] [])]), (.mk [(80, 81), (100, 101)] [(.mk [(50, 51)] []), (.mk [(70, 71)] []), (.mk [(90, 91)] []), (.mk [(110, 111), (120, 121)] [])])]) (Op.ins 55 56) =
      (.mk [(45, 46), (60, 61)] [(.mk [(40, 41)] [(.mk [(20, 21), (30, 31)] [])]), (.mk [(50, 51), (55, 56)] []), (.mk [(80, 81), (100, 101)] [(.mk [(50, 51)] []), (.mk [(70, 71)] []), (.mk [(90, 91)] []), (.mk [(110, 111), (120, 121)] [])])]) := by decide
  have hops : c8ops = [(Op.ins 10 11),
      (Op.ins 20 21),
      (Op.ins 30 31),
      (Op.ins 40 41),
      (Op.ins 50 51),
      (Op.ins 60 61),
      (Op.ins 70 71),
      (Op.ins 80 81),
      (Op.ins 90 91),
      (Op.ins 100 101),
      (Op.ins 110 111),
      (Op.ins 120 121),
      (Op.del 10),
      (Op.ins 45 46),
      (Op.ins 50 51),
      (Op.ins 55 56)] := by decide
  show runOps 2 c8ops = _
  rw [hops]
  simp only [runOps, List.foldl_cons, List.foldl_nil]
  rw [e1, e2, e3, e4, e5, e6, e7, e8, e9, e10, e11, e12, e13, e14, e15, e16]

/-- `c2tree` evaluated: the operations of `c2ops` applied step by step. -/
theorem c2tree_eq :
    c2tree =
      (.mk [(20, 21), (40, 41)] [(.mk [(5, 6), (10, 11), (15, 16)] []), (.mk [(30, 31)] []), (.mk [(50, 51), (60, 61), (70, 71)] [])]) := by
  have e1 : applyOp 2 (.mk [] []) (Op.ins 10 11) =
      (.mk [(10, 11)] []) := by decide
  have e2 : applyOp 2 (.mk [(10, 11)] []) (Op.ins 20 21) =
      (.mk [(10, 11), (20, 21)] []) := by decide
  have e3 : applyOp 2 (.mk [(10, 11), (20, 21)] []) (Op.ins 30 31) =
      (.mk [(10, 11), (20, 21), (30, 31)] []) := by decide
  have e4 : applyOp 2 (.mk [(10, 11), (20, 21), (30, 31)] []) (Op.ins 40 41) =
      (.mk [(20, 21)] [(.mk [(10, 11)] []), (.mk [(30, 31), (40, 41)] [])]) := by decide
  have e5 : applyOp 2 (.mk [(20, 21)] [(.mk [(10, 11)] []), (.mk [(30, 31), (40, 41)] [])]) (Op.ins 50 51) =
      (.mk [(20, 21)] [(.mk [(10, 11)] []), (.mk [(30, 31), (40, 41), (50, 51)] [])]) := by decide
  have e6 : applyOp 2 (.mk [(20, 21)] [(.mk [(10, 11)] []), (.mk [(30, 31), (40, 41), (50, 51)] [])]) (Op.ins 60 61) =
      (.mk [(20, 21), (40, 41)] [(.mk [(10, 11)] []), (.mk [(30, 31)] []), (.mk [(50, 51), (60, 61)] [])]) := by decide
  have e7 : applyOp 2 (.mk [(20, 21), (40, 41)] [(.mk [(10, 11)] []), (.mk [(30, 31)] []), (.mk [(50, 51), (60, 61)] [])]) (Op.ins 5 6) =
      (.mk [(20, 21), (40, 41)] [(.mk [(5, 6), (10, 11)] []), (.mk [(30, 31)] []), (.mk [(50, 51), (60, 61)] [])]) := by decide
  have e8 : applyOp 2 (.mk [(20, 21), (40, 41)] [(.mk [(5, 6), (10, 11)] []), (.mk [(30, 31)] []), (.mk [(50, 51), (60, 61)] [])]) (Op.ins 15 16) =
      (.mk [(20, 21), (40, 41)] [(.mk [(5, 6), (10, 11), (15, 16)] []), (.mk [(30, 31)] []), (.mk [(50, 51), (60, 61)] [])]) := by decide
  have e9 : applyOp 2 (.mk [(20, 21), (40, 41)] [(.mk [(5, 6), (10, 11), (15, 16)] []), (.mk [(30, 31)] []), (.mk [(50, 51), (60, 61)] [])]) (Op.ins 70 71) =
      (.mk [(20, 21), (40, 41)] [(.mk [(5, 6), (10, 11), (15, 16)] []), (.mk [(30, 31)] []), (.mk [(50, 51), (60, 61), (70, 71)] [])]) := by decide
  have hops : c2ops = [(Op.ins 10 11),
      (Op.ins 20 21),
      (Op.ins 30 31),
      (Op.ins 40 41),
      (Op.ins 50 51),
      (Op.ins 60 61),
      (Op.ins 5 6),
      (Op.ins 15 16),
      (Op.ins 70 71)] := by decide
  show runOps 2 c2ops = _
  rw [hops]
  simp only [runOps, List.foldl_cons, List.foldl_nil]
  rw [e1, e2, e3, e4, e5, e6, e7, e8, e9]

/-- `c3tree` evaluated: the operations of `c3insertOps` applied step by step. -/
theorem c3tree_eq :
    c3tree =
      (.mk [(15, 16), (31, 32)] [(.mk [(2, 3), (5, 6), (10, 11)] [(.mk [(0, 1), (1, 2)] []), (.mk [(3, 4), (4, 5)] []), (.mk [(6, 7), (7, 8), (8, 9), (9, 10)] []), (.mk [(11, 12), (12, 13), (13, 14), (14, 15)] [])]), (.mk [(18, 19), (21, 22), (25, 26)] [(.mk [(16, 17), (17, 18)] []), (.mk [(19, 20), (20, 21)] []), (.mk [(22, 23), (23, 24), (24, 25)] []), (.mk [(26, 27), (27, 28), (28, 29), (29, 30), (30, 31)] [])]), (.mk [(35, 36), (40, 41), (43, 44), (46, 47)] [(.mk [(32, 33), (33, 34), (34, 35)] []), (.mk [(36, 37), (37, 38), (38, 39), (39, 40)] []), (.mk [(41, 42), (42, 43)] []), (.mk [(44, 45), (45, 46)] []), (.mk [(47, 48), (48, 49), (49, 50), (50, 51)] [])])]) := by
  have e1 : applyOp 3 (.mk [] []) (Op.ins 0 1) =
      (.mk [(0, 1)] []) := by decide
  have e2 : applyOp 3 (.mk [(0, 1)] []) (Op.ins 5 6) =
      (.mk [(0, 1), (5, 6)] []) := by decide
  have e3 : applyOp 3 (.mk [(0, 1), (5, 6)] []) (Op.ins 10 11) =
      (.mk [(0, 1), (5, 6), (10, 11)] []) := by decide
  have e4 : applyOp 3 (.mk [(0, 1), (5, 6), (10, 11)] []) (Op.ins 15 16) =
      (.mk [(0, 1), (5, 6), (10, 11), (15, 16)] []) := by decide
  have e5 : applyOp 3 (.mk [(0, 1), (5, 6), (10, 11), (15, 16)] []) (Op.ins 20 21) =
      (.mk [(0, 1), (5, 6), (10, 11), (15, 16), (20, 21)] []) := by decide
  have e6 : applyOp 3 (.mk [(0, 1), (5, 6), (10, 11), (15, 16), (20, 21)] []) (Op.ins 25 26) =
      (.mk [(10, 11)] [(.mk [(0, 1), (5, 6)] []), (.mk [(15, 16), (20, 21), (25, 26)] [])]) := by decide
  have e7 : applyOp 3 (.mk [(10, 11)] [(.mk [(0, 1), (5, 6)] []), (.mk [(15, 16), (20, 21), (25, 26)] [])]) (Op.ins 30 31) =
      (.mk [(10, 11)] [(.mk [(0, 1), (5, 6)] []), (.mk [(15, 16), (20, 21), (25, 26), (30, 31)] [])]) := by decide
  have e8 : applyOp 3 (.mk [(10, 11)] [(.mk [(0, 1), (5, 6)] []), (.mk [(15, 16), (20, 21), (25, 26), (30, 31)] [])]) (Op.ins 35 36) =
      (.mk [(10, 11)] [(.mk [(0, 1), (5, 6)] []), (.mk [(15, 16), (20, 21), (25, 26), (30, 31), (35, 36)] [])]) := by decide
  have e9 : applyOp 3 (.mk [(10, 11)] [(.mk [(0, 1), (5, 6)] []), (.mk [(15, 16), (20, 21), (25, 26), (30, 31), (35, 36)] [])]) (Op.ins 40 41) =
      (.mk [(10, 11), (25, 26)] [(.mk [(0, 1), (5, 6)] []), (.mk [(15, 16), (20, 21)] []), (.mk [(30, 31), (35, 36), (40, 41)] [])]) := by decide
  have e10 : applyOp 3 (.mk [(10, 11), (25, 26)] [(.mk [(0, 1), (5, 6)] []), (.mk [(15, 16), (20, 21)] []), (.mk [(30, 31), (35, 36), (40, 41)] [])]) (Op.ins 45 46) =
      (.mk [(10, 11), (25, 26)] [(.mk [(0, 1), (5, 6)] []), (.mk [(15, 16), (20, 21)] []), (.mk [(30, 31), (35, 36), (40, 41), (45, 46)] [])]) := by decide
  have e11 : applyOp 3 (.mk [(10, 11), (25, 26)] [(.mk [(0, 1), (5, 6)] []), (.mk [(15, 16), (20, 21)] []), (.mk [(30, 31), (35, 36), (40, 41), (45, 46)] [])]) (Op.ins 1 2) =
      (.mk [(10, 11), (25, 26)] [(.mk [(0, 1), (1, 2), (5, 6)] []), (.mk [(15, 16), (20, 21)] []), (.mk [(30, 31), (35, 36), (40, 41), (45, 46)] [])]) := by decide
  have e12 : applyOp 3 (.mk [(10, 11), (25, 26)] [(.mk [(0, 1), (1, 2), (5, 6)] []), (.mk [(15, 16), (20, 21)] []), (.mk [(30, 31), (35, 36), (40, 41), (45, 46)] [])]) (Op.ins 6 7) =
      (.mk [(10, 11), (25, 26)] [(.mk [(0, 1), (1, 2), (5, 6), (6, 7)] []), (.mk [(15, 16), (20, 21)] []), (.mk [(30, 31), (35, 36), (40, 41), (45, 46)] [])]) := by decide
  have e13 : applyOp 3 (.mk [(10, 11), (25, 26)] [(.mk [(0, 1), (1, 2), (5, 6), (6, 7)] []), (.mk [(15, 16), (20, 21)] []), (.mk [(30, 31), (35, 36), (40, 41), (45, 46)] [])]) (Op.ins 11 12) =
      (.mk [(10, 11), (25, 26)] [(.mk [(0, 1), (1, 2), (5, 6), (6, 7)] []), (.mk [(11, 12), (15, 16), (20, 21)] []), (.mk [(30, 31), (35, 36), (40, 41), (45, 46)] [])]) := by decide
  have e14 : applyOp 3 (.mk [(10, 11), (25, 26)] [(.mk [(0, 1), (1, 2), (5, 6), (6, 7)] []), (.mk [(11, 12), (15, 16), (20, 21)] []), (.mk [(30, 31), (35, 36), (40, 41), (45, 46)] [])]) (Op.ins 16 17) =
      (.mk [(10, 11), (25, 26)] [(.mk [(0, 1), (1, 2), (5, 6), (6, 7)] []), (.mk [(11, 12), (15, 16), (16, 17), (20, 21)] []), (.mk [(30, 31), (35, 36), (40, 41), (45, 46)] [])]) := by decide
  have e15 : applyOp 3 (.mk [(10, 11), (25, 26)] [(.mk [(0, 1), (1, 2), (5, 6), (6, 7)] []), (.mk [(11, 12), (15, 16), (16, 17), (20, 21)] []), (.mk [(30, 31), (35, 36), (40, 41), (45, 46)] [])]) (Op.ins 21 22) =
      (.mk [(10, 11), (25, 26)] [(.mk [(0, 1), (1, 2), (5, 6), (6, 7)] []), (.mk [(11, 12), (15, 16), (16, 17), (20, 21), (21, 22)] []), (.mk [(30, 31), (35, 36), (40, 41), (45, 46)] [])]) := by decide
  have e16 : applyOp 3 (.mk [(10, 11), (25, 26)] [(.mk [(0, 1), (1, 2), (5, 6), (6, 7)] []), (.mk [(11, 12), (15, 16), (16, 17), (20, 21), (21, 22)] []), (.mk [(30, 31), (35, 36), (40, 41), (45, 46)] [])]) (Op.ins 26 27) =
      (.mk [(10, 11), (25, 26)] [(.mk [(0, 1), (1, 2), (5, 6), (6, 7)] []), (.mk [(11, 12), (15, 16), (16, 17), (20, 21), (21, 22)] []), (.mk [(26, 27), (30, 31), (35, 36), (40, 41), (45, 46)] [])]) := by decide
  have e17 : applyOp 3 (.mk [(10, 11), (25, 26)] [(.mk [(0, 1), (1, 2), (5, 6), (6, 7)] []), (.mk [(11, 12), (15, 16), (16, 17), (20, 21), (21, 22)] []), (.mk [(26, 27), (30, 31), (35, 36), (40, 41), (45, 46)] [])]) (Op.ins 31 32) =
      (.mk [(10, 11), (25, 26), (31, 32)] [(.mk [(0, 1), (1, 2), (5, 6), (6, 7)] []), (.mk [(11, 12), (15, 16), (16, 17), (20, 21), (21, 22)] []), (.mk [(26, 27), (30, 31)] []), (.mk [(35, 36), (40, 41), (45, 46)] [])]) := by decide
  have e18 : applyOp 3 (.mk [(10, 11), (25, 26), (31, 32)] [(.mk [(0, 1), (1, 2), (5, 6), (6, 7)] []), (.mk [(11, 12), (15, 16), (16, 17), (20, 21), (21, 22)] []), (.mk [(26, 27), (30, 31)] []), (.mk [(35, 36), (40, 41), (45, 46)] [])]) (Op.ins 36 37) =
      (.mk [(10, 11), (25, 26), (31, 32)] [(.mk [(0, 1), (1, 2), (5, 6), (6, 7)] []), (.mk [(11, 12), (15, 16), (16, 17), (20, 21), (21, 22)] []), (.mk [(26, 27), (30, 31)] []), (.mk [(35, 36), (36, 37), (40, 41), (45, 46)] [])]) := by decide
  have e19 : applyOp 3 (.mk [(10, 11), (25, 26), (31, 32)] [(.mk [(0, 1), (1, 2), (5, 6), (6, 7)] []), (.mk [(11, 12), (15, 16), (16, 17), (20, 21), (21, 22)] []), (.mk [(26, 27), (30, 31)] []), (.mk [(35, 36), (36, 37), (40, 41), (45, 46)] [])]) (Op.ins 41 42) =
      (.mk [(10, 11), (25, 26), (31, 32)] [(.mk [(0, 1), (1, 2), (5, 6), (6, 7)] []), (.mk [(11, 12), (15, 16), (16, 17), (20, 21), (21, 22)] []), (.mk [(26, 27), (30, 31)] []), (.mk [(35, 36), (36, 37), (40, 41), (41, 42), (45, 46)] [])]) := by decide
  have e20 : applyOp 3 (.mk [(10, 11), (25, 26), (31, 32)] [(.mk [(0, 1), (1, 2), (5, 6), (6, 7)] []), (.mk [(11, 12), (15, 16), (16, 17), (20, 21), (21, 22)] []), (.mk [(26, 27), (30, 31)] []), (.mk [(35, 36), (36, 37), (40, 41), (41, 42), (45, 46)] [])]) (Op.ins 46 47) =
      (.mk [(10, 11), (25, 26), (31, 32), (40, 41)] [(.mk [(0, 1), (1, 2), (5, 6), (6, 7)] []), (.mk [(11, 12), (15, 16), (16, 17), (20, 21), (21, 22)] []), (.mk [(26, 27), (30, 31)] []), (.mk [(35, 36), (36, 37)] []), (.mk [(41, 42), (45, 46), (46, 47)] [])]) := by decide
  have e21 : applyOp 3 (.mk [(10, 11), (25, 26), (31, 32), (40, 41)] [(.mk [(0, 1), (1, 2), (5, 6), (6, 7)] []), (.mk [(11, 12), (15, 16), (16, 17), (20, 21), (21, 22)] []), (.mk [(26, 27), (30, 31)] []), (.mk [(35, 36), (36, 37)] []), (.mk [(41, 42), (45, 46), (46, 47)] [])]) (Op.ins 2 3) =
      (.mk [(10, 11), (25, 26), (31, 32), (40, 41)] [(.mk [(0, 1), (1, 2), (2, 3), (5, 6), (6, 7)] []), (.mk [(11, 12), (15, 16), (16, 17), (20, 21), (21, 22)] []), (.mk [(26, 27), (30, 31)] []), (.mk [(35, 36), (36, 37)] []), (.mk [(41, 42), (45, 46), (46, 47)] [])]) := by decide
  have e22 : applyOp 3 (.mk [(10, 11), (25, 26), (31, 32), (40, 41)] [(.mk [(0, 1), (1, 2), (2, 3), (5, 6), (6, 7)] []), (.mk [(11, 12), (15, 16), (16, 17), (20, 21), (21, 22)] []), (.mk [(26, 27), (30, 31)] []), (.mk [(35, 36), (36, 37)] []), (.mk [(41, 42), (45, 46), (46, 47)] [])]) (Op.ins 7 8) =
      (.mk [(2, 3), (10, 11), (25, 26), (31, 32), (40, 41)] [(.mk [(0, 1), (1, 2)] []), (.mk [(5, 6), (6, 7), (7, 8)] []), (.mk [(11, 12), (15, 16), (16, 17), (20, 21), (21, 22)] []), (.mk [(26, 27), (30, 31)] []), (.mk [(35, 36), (36, 37)] []), (.mk [(41, 42), (45, 46), (46, 47)] [])]) := by decide
  have e23 : applyOp 3 (.mk [(2, 3), (10, 11), (25, 26), (31, 32), (40, 41)] [(.mk [(0, 1), (1, 2)] []), (.mk [(5, 6), (6, 7), (7, 8)] []), (.mk [(11, 12), (15, 16), (16, 17), (20, 21), (21, 22)] []), (.mk [(26, 27), (30, 31)] []), (.mk [(35, 36), (36, 37)] []), (.mk [(41, 42), (45, 46), (46, 47)] [])]) (Op.ins 12 13) =
      (.mk [(15, 16)] [(.mk [(2, 3), (10, 11)] [(.mk [(0, 1), (1, 2)] []), (.mk [(5, 6), (6, 7), (7, 8)] []), (.mk [(11, 12), (12, 13)] [])]), (.mk [(25, 26), (31, 32), (40, 41)] [(.mk [(16, 17), (20, 21), (21, 22)] []), (.mk [(26, 27), (30, 31)] []), (.mk [(35, 36), (36, 37)] []), (.mk [(41, 42), (45, 46), (46, 47)] [])])]) := by decide
  have e24 : applyOp 3 (.mk [(15, 16)] [(.mk [(2, 3), (10, 11)] [(.mk [(0, 1), (1, 2)] []), (.mk [(5, 6), (6, 7), (7, 8)] []), (.mk [(11, 12), (12, 13)] [])]), (.mk [(25, 26), (31, 32), (40, 41)] [(.mk [(16, 17), (20, 21), (21, 22)] []), (.mk [(26, 27), (30, 31)] []), (.mk [(35, 36), (36, 37)] []), (.mk [(41, 42), (45, 46), (46, 47)] [])])]) (Op.ins 17 18) =
      (.mk [(15, 16)] [(.mk [(2, 3), (10, 11)] [(.mk [(0, 1), (1, 2)] []), (.mk [(5, 6), (6, 7), (7, 8)] []), (.mk [(11, 12), (12, 13)] [])]), (.mk [(25, 26), (31, 32), (40, 41)] [(.mk [(16, 17), (17, 18), (20, 21), (21, 22)] []), (.mk [(26, 27), (30, 31)] []), (.mk [(35, 36), (36, 37)] []), (.mk [(41, 42), (45, 46), (46, 47)] [])])]) := by decide
  have e25 : applyOp 3 (.mk [(15, 16)] [(.mk [(2, 3), (10, 11)] [(.mk [(0, 1), (1, 2)] []), (.mk [(5, 6), (6, 7), (7, 8)] []), (.mk [(11, 12), (12, 13)] [])]), (.mk [(25, 26), (31, 32), (40, 41)] [(.mk [(16, 17), (17, 18), (20, 21), (21, 22)] []), (.mk [(26, 27), (30, 31)] []), (.mk [(35, 36), (36, 37)] []), (.mk [(41, 42), (45, 46), (46, 47)] [])])]) (Op.ins 22 23) =
      (.mk [(15, 16)] [(.mk [(2, 3), (10, 11)] [(.mk [(0, 1), (1, 2)] []), (.mk [(5, 6), (6, 7), (7, 8)] []), (.mk [(11, 12), (12, 13)] [])]), (.mk [(25, 26), (31, 32), (40, 41)] [(.mk [(16, 17), (17, 18), (20, 21), (21, 22), (22, 23)] []), (.mk [(26, 27), (30, 31)] []), (.mk [(35, 36), (36, 37)] []), (.mk [(41, 42), (45, 46), (46, 47)] [])])]) := by decide
  have e26 : applyOp 3 (.mk [(15, 16)] [(.mk [(2, 3), (10, 11)] [(.mk [(0, 1), (1, 2)] []), (.mk [(5, 6), (6, 7), (7, 8)] []), (.mk [(11, 12), (12, 13)] [])]), (.mk [(25, 26), (31, 32), (40, 41)] [(.mk [(16, 17), (17, 18), (20, 21), (21, 22), (22, 23)] []), (.mk [(26, 27), (30, 31)] []), (.mk [(35, 36), (36, 37)] []), (.mk [(41, 42), (45, 46), (46, 47)] [])])]) (Op.ins 27 28) =
      (.mk [(15, 16)] [(.mk [(2, 3), (10, 11)] [(.mk [(0, 1), (1, 2)] []), (.mk [(5, 6), (6, 7), (7, 8)] []), (.mk [(11, 12), (12, 13)] [])]), (.mk [(25, 26), (31, 32), (40, 41)] [(.mk [(16, 17), (17, 18), (20, 21), (21, 22), (22, 23)] []), (.mk [(26, 27), (27, 28), (30, 31)] []), (.mk [(35, 36), (36, 37)] []), (.mk [(41, 42), (45, 46), (46, 47)] [])])]) := by decide
  have e27 : applyOp 3 (.mk [(15, 16)] [(.mk [(2, 3), (10, 11)] [(.mk [(0, 1), (1, 2)] []), (.mk [(5, 6), (6, 7), (7, 8)] []), (.mk [(11, 12), (12, 13)] [])]), (.mk [(25, 26), (31, 32), (40, 41)] [(.mk [(16, 17), (17, 18), (20, 21), (21, 22), (22, 23)] []), (.mk [(26, 27), (27, 28), (30, 31)] []), (.mk [(35, 36), (36, 37)] []), (.mk [(41, 42), (45, 46), (46, 47)] [])])]) (Op.ins 32 33) =
      (.mk [(15, 16)] [(.mk [(2, 3), (10, 11)] [(.mk [(0, 1), (1, 2)] []), (.mk [(5, 6), (6, 7), (7, 8)] []), (.mk [(11, 12), (12, 13)] [])]), (.mk [(25, 26), (31, 32), (40, 41)] [(.mk [(16, 17), (17, 18), (20, 21), (21, 22), (22, 23)] []), (.mk [(26, 27), (27, 28), (30, 31)] []), (.mk [(32, 33), (35, 36), (36, 37)] []), (.mk [(41, 42), (45, 46), (46, 47)] [])])]) := by decide
  have e28 : applyOp 3 (.mk [(15, 16)] [(.mk [(2, 3), (10, 11)] [(.mk [(0, 1), (1, 2)] []), (.mk [(5, 6), (6, 7), (7, 8)] []), (.mk [(11, 12), (12, 13)] [])]), (.mk [(25, 26), (31, 32), (40, 41)] [(.mk [(16, 17), (17, 18), (20, 21), (21, 22), (22, 23)] []), (.mk [(26, 27), (27, 28), (30, 31)] []), (.mk [(32, 33), (35, 36), (36, 37)] []), (.mk [(41, 42), (45, 46), (46, 47)] [])])]) (Op.ins 37 38) =
      (.mk [(15, 16)] [(.mk [(2, 3), (10, 11)] [(.mk [(0, 1), (1, 2)] []), (.mk [(5, 6), (6, 7), (7, 8)] []), (.mk [(11, 12), (12, 13)] [])]), (.mk [(25, 26), (31, 32), (40, 41)] [(.mk [(16, 17), (17, 18), (20, 21), (21, 22), (22, 23)] []), (.mk [(26, 27), (27, 28), (30, 31)] []), (.mk [(32, 33), (35, 36), (36, 37), (37, 38)] []), (.mk [(41, 42), (45, 46), (46, 47)] [])])]) := by decide
  have e29 : applyOp 3 (.mk [(15, 16)] [(.mk [(2, 3), (10, 11)] [(.mk [(0, 1), (1, 2)] []), (.mk [(5, 6), (6, 7), (7, 8)] []), (.mk [(11, 12), (12, 13)] [])]), (.mk [(25, 26), (31, 32), (40, 41)] [(.mk [(16, 17), (17, 18), (20, 21), (21, 22), (22, 23)] []), (.mk [(26, 27), (27, 28), (30, 31)] []), (.mk [(32, 33), (35, 36), (36, 37), (37, 38)] []), (.mk [(41, 42), (45, 46), (46, 47)] [])])]) (Op.ins 42 43) =
      (.mk [(15, 16)] [(.mk [(2, 3), (10, 11)] [(.mk [(0, 1), (1, 2)] []), (.mk [(5, 6), (6, 7), (7, 8)] []), (.mk [(11, 12), (12, 13)] [])]), (.mk [(25, 26), (31, 32), (40, 41)] [(.mk [(16, 17), (17, 18), (20, 21), (21, 22), (22, 23)] []), (.mk [(26, 27), (27, 28), (30, 31)] []), (.mk [(32, 33), (35, 36), (36, 37), (37, 38)] []), (.mk [(41, 42), (42, 43), (45, 46), (46, 47)] [])])]) := by decide
  have e30 : applyOp 3 (.mk [(15, 16)] [(.mk [(2, 3), (10, 11)] [(.mk [(0, 1), (1, 2)] []), (.mk [(5, 6), (6, 7), (7, 8)] []), (.mk [(11, 12), (12, 13)] [])]), (.mk [(25, 26), (31, 32), (40, 41)] [(.mk [(16, 17), (17, 18), (20, 21), (21, 22), (22, 23)] []), (.mk [(26, 27), (27, 28), (30, 31)] []), (.mk [(32, 33), (35, 36), (36, 37), (37, 38)] []), (.mk [(41, 42), (42, 43), (45, 46), (46, 47)] [])])]) (Op.ins 47 48) =
      (.mk [(15, 16)] [(.mk [(2, 3), (10, 11)] [(.mk [(0, 1), (1, 2)] []), (.mk [(5, 6), (6, 7), (7, 8)] []), (.mk [(11, 12), (12, 13)] [])]), (.mk [(25, 26), (31, 32), (40, 41)] [(.mk [(16, 17), (17, 18), (20, 21), (21, 22), (22, 23)] []), (.mk [(26, 27), (27, 28), (30, 31)] []), (.mk [(32, 33), (35, 36), (36, 37), (37, 38)] []), (.mk [(41, 42), (42, 43), (45, 46), (46, 47), (47, 48)] [])])]) := by decide
  have e31 : applyOp 3 (.mk [(15, 16)] [(.mk [(2, 3), (10, 11)] [(.mk [(0, 1), (1, 2)] []), (.mk [(5, 6), (6, 7), (7, 8)] []), (.mk [(11, 12), (12, 13)] [])]), (.mk [(25, 26), (31, 32), (40, 41)] [(.mk [(16, 17), (17, 18), (20, 21), (21, 22), (22, 23)] []), (.mk [(26, 27), (27, 28), (30, 31)] []), (.mk [(32, 33), (35, 36), (36, 37), (37, 38)] []), (.mk [(41, 42), (42, 43), (45, 46), (46, 47), (47, 48)] [])])]) (Op.ins 3 4) =
      (.mk [(15, 16)] [(.mk [(2, 3), (10, 11)] [(.mk [(0, 1), (1, 2)] []), (.mk [(3, 4), (5, 6), (6, 7), (7, 8)] []), (.mk [(11, 12), (12, 13)] [])]), (.mk [(25, 26), (31, 32), (40, 41)] [(.mk [(16, 17), (17, 18), (20, 21), (21, 22), (22, 23)] []), (.mk [(26, 27), (27, 28), (30, 31)] []), (.mk [(32, 33), (35, 36), (36, 37), (37, 38)] []), (.mk [(41, 42), (42, 43), (45, 46), (46, 47), (47, 48)] [])])]) := by decide
  have e32 : applyOp 3 (.mk [(15, 16)] [(.mk [(2, 3), (10, 11)] [(.mk [(0, 1), (1, 2)] []), (.mk [(3, 4), (5, 6), (6, 7), (7, 8)] []), (.mk [(11, 12), (12, 13)] [])]), (.mk [(25, 26), (31, 32), (40, 41)] [(.mk [(16, 17), (17, 18), (20, 21), (21, 22), (22, 23)] []), (.mk [(26, 27), (27, 28), (30, 31)] []), (.mk [(32, 33), (35, 36), (36, 37), (37, 38)] []), (.mk [(41, 42), (42, 43), (45, 46), (46, 47), (47, 48)] [])])]) (Op.ins 8 9) =
      (.mk [(15, 16)] [(.mk [(2, 3), (10, 11)] [(.mk [(0, 1), (1, 2)] []), (.mk [(3, 4), (5, 6), (6, 7), (7, 8), (8, 9)] []), (.mk [(11, 12), (12, 13)] [])]), (.mk [(25, 26), (31, 32), (40, 41)] [(.mk [(16, 17), (17, 18), (20, 21), (21, 22), (22, 23)] []), (.mk [(26, 27), (27, 28), (30, 31)] []), (.mk [(32, 33), (35, 36), (36, 37), (37, 38)] []), (.mk [(41, 42), (42, 43), (45, 46), (46, 47), (47, 48)] [])])]) := by decide
  have e33 : applyOp 3 (.mk [(15, 16)] [(.mk [(2, 3), (10, 11)] [(.mk [(0, 1), (1, 2)] []), (.mk [(3, 4), (5, 6), (6, 7), (7, 8), (8, 9)] []), (.mk [(11, 12), (12, 13)] [])]), (.mk [(25, 26), (31, 32), (40, 41)] [(.mk [(16, 17), (17, 18), (20, 21), (21, 22), (22, 23)] []), (.mk [(26, 27), (27, 28), (30, 31)] []), (.mk [(32, 33), (35, 36), (36, 37), (37, 38)] []), (.mk [(41, 42), (42, 43), (45, 46), (46, 47), (47, 48)] [])])]) (Op.ins 13 14) =
      (.mk [(15, 16)] [(.mk [(2, 3), (10, 11)] [(.mk [(0, 1), (1, 2)] []), (.mk [(3, 4), (5, 6), (6, 7), (7, 8), (8, 9)] []), (.mk [(11, 12), (12, 13), (13, 14)] [])]), (.mk [(25, 26), (31, 32), (40, 41)] [(.mk [(16, 17), (17, 18), (20, 21), (21, 22), (22, 23)] []), (.mk [(26, 27), (27, 28), (30, 31)] []), (.mk [(32, 33), (35, 36), (36, 37), (37, 38)] []), (.mk [(41, 42), (42, 43), (45, 46), (46, 47), (47, 48)] [])])]) := by decide
  have e34 : applyOp 3 (.mk [(15, 16)] [(.mk [(2, 3), (10, 11)] [(.mk [(0, 1), (1, 2)] []), (.mk [(3, 4), (5, 6), (6, 7), (7, 8), (8, 9)] []), (.mk [(11, 12), (12, 13), (13, 14)] [])]), (.mk [(25, 26), (31, 32), (40, 41)] [(.mk [(16, 17), (17, 18), (20, 21), (21, 22), (22, 23)] []), (.mk [(26, 27), (27, 28), (30, 31)] []), (.mk [(32, 33), (35, 36), (36, 37), (37, 38)] []), (.mk [(41, 42), (42, 43), (45, 46), (46, 47), (47, 48)] [])])]) (Op.ins 18 19) =
      (.mk [(15, 16)] [(.mk [(2, 3), (10, 11)] [(.mk [(0, 1), (1, 2)] []), (.mk [(3, 4), (5, 6), (6, 7), (7, 8), (8, 9)] []), (.mk [(11, 12), (12, 13), (13, 14)] [])]), (.mk [(18, 19), (25, 26), (31, 32), (40, 41)] [(.mk [(16, 17), (17, 18)] []), (.mk [(20, 21), (21, 22), (22, 23)] []), (.mk [(26, 27), (27, 28), (30, 31)] []), (.mk [(32, 33), (35, 36), (36, 37), (37, 38)] []), (.mk [(41, 42), (42, 43), (45, 46), (46, 47), (47, 48)] [])])]) := by decide
  have e35 : applyOp 3 (.mk [(15, 16)] [(.mk [(2, 3), (10, 11)] [(.mk [(0, 1), (1, 2)] []), (.mk [(3, 4), (5, 6), (6, 7), (7, 8), (8, 9)] []), (.mk [(11, 12), (12, 13), (13, 14)] [])]), (.mk [(18, 19), (25, 26), (31, 32), (40, 41)] [(.mk [(16, 17), (17, 18)] []), (.mk [(20, 21), (21, 22), (22, 23)] []), (.mk [(26, 27), (27, 28), (30, 31)] []), (.mk [(32, 33), (35, 36), (36, 37), (37, 38)] []), (.mk [(41, 42), (42, 43), (45, 46), (46, 47), (47, 48)] [])])]) (Op.ins 23 24) =
      (.mk [(15, 16)] [(.mk [(2, 3), (10, 11)] [(.mk [(0, 1), (1, 2)] []), (.mk [(3, 4), (5, 6), (6, 7), (7, 8), (8, 9)] []), (.mk [(11, 12), (12, 13), (13, 14)] [])]), (.mk [(18, 19), (25, 26), (31, 32), (40, 41)] [(.mk [(16, 17), (17, 18)] []), (.mk [(20, 21), (21, 22), (22, 23), (23, 24)] []), (.mk [(26, 27), (27, 28), (30, 31)] []), (.mk [(32, 33), (35, 36), (36, 37), (37, 38)] []), (.mk [(41, 42), (42, 43), (45, 46), (46, 47), (47, 48)] [])])]) := by decide
  have e36 : applyOp 3 (.mk [(15, 16)] [(.mk [(2, 3), (10, 11)] [(.mk [(0, 1), (1, 2)] []), (.mk [(3, 4), (5, 6), (6, 7), (7, 8), (8, 9)] []), (.mk [(11, 12), (12, 13), (13, 14)] [])]), (.mk [(18, 19), (25, 26), (31, 32), (40, 41)] [(.mk [(16, 17), (17, 18)] []), (.mk [(20, 21), (21, 22), (22, 23), (23, 24)] []), (.mk [(26, 27), (27, 28), (30, 31)] []), (.mk [(32, 33), (35, 36), (36, 37), (37, 38)] []), (.mk [(41, 42), (42, 43), (45, 46), (46, 47), (47, 48)] [])])]) (Op.ins 28 29) =
      (.mk [(15, 16)] [(.mk [(2, 3), (10, 11)] [(.mk [(0, 1), (1, 2)] []), (.mk [(3, 4), (5, 6), (6, 7), (7, 8), (8, 9)] []), (.mk [(11, 12), (12, 13), (13, 14)] [])]), (.mk [(18, 19), (25, 26), (31, 32), (40, 41)] [(.mk [(16, 17), (17, 18)] []), (.mk [(20, 21), (21, 22), (22, 23), (23, 24)] []), (.mk [(26, 27), (27, 28), (28, 29), (30, 31)] []), (.mk [(32, 33), (35, 36), (36, 37), (37, 38)] []), (.mk [(41, 42), (42, 43), (45, 46), (46, 47), (47, 48)] [])])]) := by decide
  have e37 : applyOp 3 (.mk [(15, 16)] [(.mk [(2, 3), (10, 11)] [(.mk [(0, 1), (1, 2)] []), (.mk [(3, 4), (5, 6), (6, 7), (7, 8), (8, 9)] []), (.mk [(11, 12), (12, 13), (13, 14)] [])]), (.mk [(18, 19), (25, 26), (31, 32), (40, 41)] [(.mk [(16, 17), (17, 18)] []), (.mk [(20, 21), (21, 22), (22, 23), (23, 24)] []), (.mk [(26, 27), (27, 28), (28, 29), (30, 31)] []), (.mk [(32, 33), (35, 36), (36, 37), (37, 38)] []), (.mk [(41, 42), (42, 43), (45, 46), (46, 47), (47, 48)] [])])]) (Op.ins 33 34) =
      (.mk [(15, 16)] [(.mk [(2, 3), (10, 11)] [(.mk [(0, 1), (1, 2)] []), (.mk [(3, 4), (5, 6), (6, 7), (7, 8), (8, 9)] []), (.mk [(11, 12), (12, 13), (13, 14)] [])]), (.mk [(18, 19), (25, 26), (31, 32), (40, 41)] [(.mk [(16, 17), (17, 18)] []), (.mk [(20, 21), (21, 22), (22, 23), (23, 24)] []), (.mk [(26, 27), (27, 28), (28, 29), (30, 31)] []), (.mk [(32, 33), (33, 34), (35, 36), (36, 37), (37, 38)] []), (.mk [(41, 42), (42, 43), (45, 46), (46, 47), (47, 48)] [])])]) := by decide
  have e38 : applyOp 3 (.mk [(15, 16)] [(.mk [(2, 3), (10, 11)] [(.mk [(0, 1), (1, 2)] []), (.mk [(3, 4), (5, 6), (6, 7), (7, 8), (8, 9)] []), (.mk [(11, 12), (12, 13), (13, 14)] [])]), (.mk [(18, 19), (25, 26), (31, 32), (40, 41)] [(.mk [(16, 17), (17, 18)] []), (.mk [(20, 21), (21, 22), (22, 23), (23, 24)] []), (.mk [(26, 27), (27, 28), (28, 29), (30, 31)] []), (.mk [(32, 33), (33, 34), (35, 36), (36, 37), (37, 38)] []), (.mk [(41, 42), (42, 43), (45, 46), (46, 47), (47, 48)] [])])]) (Op.ins 38 39) =
      (.mk [(15, 16)] [(.mk [(2, 3), (10, 11)] [(.mk [(0, 1), (1, 2)] []), (.mk [(3, 4), (5, 6), (6, 7), (7, 8), (8, 9)] []), (.mk [(11, 12), (12, 13), (13, 14)] [])]), (.mk [(18, 19), (25, 26), (31, 32), (35, 36), (40, 41)] [(.mk [(16, 17), (17, 18)] []), (.mk [(20, 21), (21, 22), (22, 23), (23, 24)] []), (.mk [(26, 27), (27, 28), (28, 29), (30, 31)] []), (.mk [(32, 33), (33, 34)] []), (.mk [(36, 37), (37, 38), (38, 39)] []), (.mk [(41, 42), (42, 43), (45, 46), (46, 47), (47, 48)] [])])]) := by decide
  have e39 : applyOp 3 (.mk [(15, 16)] [(.mk [(2, 3), (10, 11)] [(.mk [(0, 1), (1, 2)] []), (.mk [(3, 4), (5, 6), (6, 7), (7, 8), (8, 9)] []), (.mk [(11, 12), (12, 13), (13, 14)] [])]), (.mk [(18, 19), (25, 26), (31, 32), (35, 36), (40, 41)] [(.mk [(16, 17), (17, 18)] []), (.mk [(20, 21), (21, 22), (22, 23), (23, 24)] []), (.mk [(26, 27), (27, 28), (28, 29), (30, 31)] []), (.mk [(32, 33), (33, 34)] []), (.mk [(36, 37), (37, 38), (38, 39)] []), (.mk [(41, 42), (42, 43), (45, 46), (46, 47), (47, 48)] [])])]) (Op.ins 43 44) =
      (.mk [(15, 16), (31, 32)] [(.mk [(2, 3), (10, 11)] [(.mk [(0, 1), (1, 2)] []), (.mk [(3, 4), (5, 6), (6, 7), (7, 8), (8, 9)] []), (.mk [(11, 12), (12, 13), (13, 14)] [])]), (.mk [(18, 19), (25, 26)] [(.mk [(16, 17), (17, 18)] []), (.mk [(20, 21), (21, 22), (22, 23), (23, 24)] []), (.mk [(26, 27), (27, 28), (28, 29), (30, 31)] [])]), (.mk [(35, 36), (40, 41), (43, 44)] [(.mk [(32, 33), (33, 34)] []), (.mk [(36, 37), (37, 38), (38, 39)] []), (.mk [(41, 42), (42, 43)] []), (.mk [(45, 46), (46, 47), (47, 48)] [])])]) := by decide
  have e40 : applyOp 3 (.mk [(15, 16), (31, 32)] [(.mk [(2, 3), (10, 11)] [(.mk [(0, 1), (1, 2)] []), (.mk [(3, 4), (5, 6), (6, 7), (7, 8), (8, 9)] []), (.mk [(11, 12), (12, 13), (13, 14)] [])]), (.mk [(18, 19), (25, 26)] [(.mk [(16, 17), (17, 18)] []), (.mk [(20, 21), (21, 22), (22, 23), (23, 24)] []), (.mk [(26, 27), (27, 28), (28, 29), (30, 31)] [])]), (.mk [(35, 36), (40, 41), (43, 44)] [(.mk [(32, 33), (33, 34)] []), (.mk [(36, 37), (37, 38), (38, 39)] []), (.mk [(41, 42), (42, 43)] []), (.mk [(45, 46), (46, 47), (47, 48)] [])])]) (Op.ins 48 49) =
      (.mk [(15, 16), (31, 32)] [(.mk [(2, 3), (10, 11)] [(.mk [(0, 1), (1, 2)] []), (.mk [(3, 4), (5, 6), (6, 7), (7, 8), (8, 9)] []), (.mk [(11, 12), (12, 13), (13, 14)] [])]), (.mk [(18, 19), (25, 26)] [(.mk [(16, 17), (17, 18)] []), (.mk [(20, 21), (21, 22), (22, 23), (23, 24)] []), (.mk [(26, 27), (27, 28), (28, 29), (30, 31)] [])]), (.mk [(35, 36), (40, 41), (43, 44)] [(.mk [(32, 33), (33, 34)] []), (.mk [(36, 37), (37, 38), (38, 39)] []), (.mk [(41, 42), (42, 43)] []), (.mk [(45, 46), (46, 47), (47, 48), (48, 49)] [])])]) := by decide
  have e41 : applyOp 3 (.mk [(15, 16), (31, 32)] [(.mk [(2, 3), (10, 11)] [(.mk [(0, 1), (1, 2)] []), (.mk [(3, 4), (5, 6), (6, 7), (7, 8), (8, 9)] []), (.mk [(11, 12), (12, 13), (13, 14)] [])]), (.mk [(18, 19), (25, 26)] [(.mk [(16, 17), (17, 18)] []), (.mk [(20, 21), (21, 22), (22, 23), (23, 24)] []), (.mk [(26, 27), (27, 28), (28, 29), (30, 31)] [])]), (.mk [(35, 36), (40, 41), (43, 44)] [(.mk [(32, 33), (33, 34)] []), (.mk [(36, 37), (37, 38), (38, 39)] []), (.mk [(41, 42), (42, 43)] []), (.mk [(45, 46), (46, 47), (47, 48), (48, 49)] [])])]) (Op.ins 4 5) =
      (.mk [(15, 16), (31, 32)] [(.mk [(2, 3), (5, 6), (10, 11)] [(.mk [(0, 1), (1, 2)] []), (.mk [(3, 4), (4, 5)] []), (.mk [(6, 7), (7, 8), (8, 9)] []), (.mk [(11, 12), (12, 13), (13, 14)] [])]), (.mk [(18, 19), (25, 26)] [(.mk [(16, 17), (17, 18)] []), (.mk [(20, 21), (21, 22), (22, 23), (23, 24)] []), (.mk [(26, 27), (27, 28), (28, 29), (30, 31)] [])]), (.mk [(35, 36), (40, 41), (43, 44)] [(.mk [(32, 33), (33, 34)] []), (.mk [(36, 37), (37, 38), (38, 39)] []), (.mk [(41, 42), (42, 43)] []), (.mk [(45, 46), (46, 47), (47, 48), (48, 49)] [])])]) := by decide
  have e42 : applyOp 3 (.mk [(15, 16), (31, 32)] [(.mk [(2, 3), (5, 6), (10, 11)] [(.mk [(0, 1), (1, 2)] []), (.mk [(3, 4), (4, 5)] []), (.mk [(6, 7), (7, 8), (8, 9)] []), (.mk [(11, 12), (12, 13), (13, 14)] [])]), (.mk [(18, 19), (25, 26)] [(.mk [(16, 17), (17, 18)] []), (.mk [(20, 21), (21, 22), (22, 23), (23, 24)] []), (.mk [(26, 27), (27, 28), (28, 29), (30, 31)] [])]), (.mk [(35, 36), (40, 41), (43, 44)] [(.mk [(32, 33), (33, 34)] []), (.mk [(36, 37), (37, 38), (38, 39)] []), (.mk [(41, 42), (42, 43)] []), (.mk [(45, 46), (46, 47), (47, 48), (48, 49)] [])])]) (Op.ins 9 10) =
      (.mk [(15, 16), (31, 32)] [(.mk [(2, 3), (5, 6), (10, 11)] [(.mk [(0, 1), (1, 2)] []), (.mk [(3, 4), (4, 5)] []), (.mk [(6, 7), (7, 8), (8, 9), (9, 10)] []), (.mk [(11, 12), (12, 13), (13, 14)] [])]), (.mk [(18, 19), (25, 26)] [(.mk [(16, 17), (17, 18)] []), (.mk [(20, 21), (21, 22), (22, 23), (23, 24)] []), (.mk [(26, 27), (27, 28), (28, 29), (30, 31)] [])]), (.mk [(35, 36), (40, 41), (43, 44)] [(.mk [(32, 33), (33, 34)] []), (.mk [(36, 37), (37, 38), (38, 39)] []), (.mk [(41, 42), (42, 43)] []), (.mk [(45, 46), (46, 47), (47, 48), (48, 49)] [])])]) := by decide
  have e43 : applyOp 3 (.mk [(15, 16), (31, 32)] [(.mk [(2, 3), (5, 6), (10, 11)] [(.mk [(0, 1), (1, 2)] []), (.mk [(3, 4), (4, 5)] []), (.mk [(6, 7), (7, 8), (8, 9), (9, 10)] []), (.mk [(11, 12), (12, 13), (13, 14)] [])]), (.mk [(18, 19), (25, 26)] [(.mk [(16, 17), (17, 18)] []), (.mk [(20, 21), (21, 22), (22, 23), (23, 24)] []), (.mk [(26, 27), (27, 28), (28, 29), (30, 31)] [])]), (.mk [(35, 36), (40, 41), (43, 44)] [(.mk [(32, 33), (33, 34)] []), (.mk [(36, 37), (37, 38), (38, 39)] []), (.mk [(41, 42), (42, 43)] []), (.mk [(45, 46), (46, 47), (47, 48), (48, 49)] [])])]) (Op.ins 14 15) =
      (.mk [(15, 16), (31, 32)] [(.mk [(2, 3), (5, 6), (10, 11)] [(.mk [(0, 1), (1, 2)] []), (.mk [(3, 4), (4, 5)] []), (.mk [(6, 7), (7, 8), (8, 9), (9, 10)] []), (.mk [(11, 12), (12, 13), (13, 14), (14, 15)] [])]), (.mk [(18, 19), (25, 26)] [(.mk [(16, 17), (17, 18)] []), (.mk [(20, 21), (21, 22), (22, 23), (23, 24)] []), (.mk [(26, 27), (27, 28), (28, 29), (30, 31)] [])]), (.mk [(35, 36), (40, 41), (43, 44)] [(.mk [(32, 33), (33, 34)] []), (.mk [(36, 37), (37, 38), (38, 39)] []), (.mk [(41, 42), (42, 43)] []), (.mk [(45, 46), (46, 47), (47, 48), (48, 49)] [])])]) := by decide
  have e44 : applyOp 3 (.mk [(15, 16), (31, 32)] [(.mk [(2, 3), (5, 6), (10, 11)] [(.mk [(0, 1), (1, 2)] []), (.mk [(3, 4), (4, 5)] []), (.mk [(6, 7), (7, 8), (8, 9), (9, 10)] []), (.mk [(11, 12), (12, 13), (13, 14), (14, 15)] [])]), (.mk [(18, 19), (25, 26)] [(.mk [(16, 17), (17, 18)] []), (.mk [(20, 21), (21, 22), (22, 23), (23, 24)] []), (.mk [(26, 27), (27, 28), (28, 29), (30, 31)] [])]), (.mk [(35, 36), (40, 41), (43, 44)] [(.mk [(32, 33), (33, 34)] []), (.mk [(36, 37), (37, 38), (38, 39)] []), (.mk [(41, 42), (42, 43)] []), (.mk [(45, 46), (46, 47), (47, 48), (48, 49)] [])])]) (Op.ins 19 20) =
      (.mk [(15, 16), (31, 32)] [(.mk [(2, 3), (5, 6), (10, 11)] [(.mk [(0, 1), (1, 2)] []), (.mk [(3, 4), (4, 5)] []), (.mk [(6, 7), (7, 8), (8, 9), (9, 10)] []), (.mk [(11, 12), (12, 13), (13, 14), (14, 15)] [])]), (.mk [(18, 19), (25, 26)] [(.mk [(16, 17), (17, 18)] []), (.mk [(19, 20), (20, 21), (21, 22), (22, 23), (23, 24)] []), (.mk [(26, 27), (27, 28), (28, 29), (30, 31)] [])]), (.mk [(35, 36), (40, 41), (43, 44)] [(.mk [(32, 33), (33, 34)] []), (.mk [(36, 37), (37, 38), (38, 39)] []), (.mk [(41, 42), (42, 43)] []), (.mk [(45, 46), (46, 47), (47, 48), (48, 49)] [])])]) := by decide
  have e45 : applyOp 3 (.mk [(15, 16), (31, 32)] [(.mk [(2, 3), (5, 6), (10, 11)] [(.mk [(0, 1), (1, 2)] []), (.mk [(3, 4), (4, 5)] []), (.mk [(6, 7), (7, 8), (8, 9), (9, 10)] []), (.mk [(11, 12), (12, 13), (13, 14), (14, 15)] [])]), (.mk [(18, 19), (25, 26)] [(.mk [(16, 17), (17, 18)] []), (.mk [(19, 20), (20, 21), (21, 22), (22, 23), (23, 24)] []), (.mk [(26, 27), (27, 28), (28, 29), (30, 31)] [])]), (.mk [(35, 36), (40, 41), (43, 44)] [(.mk [(32, 33), (33, 34)] []), (.mk [(36, 37), (37, 38), (38, 39)] []), (.mk [(41, 42), (42, 43)] []), (.mk [(45, 46), (46, 47), (47, 48), (48, 49)] [])])]) (Op.ins 24 25) =
      (.mk [(15, 16), (31, 32)] [(.mk [(2, 3), (5, 6), (10, 11)] [(.mk [(0, 1), (1, 2)] []), (.mk [(3, 4), (4, 5)] []), (.mk [(6, 7), (7, 8), (8, 9), (9, 10)] []), (.mk [(11, 12), (12, 13), (13, 14), (14, 15)] [])]), (.mk [(18, 19), (21, 22), (25, 26)] [(.mk [(16, 17), (17, 18)] []), (.mk [(19, 20), (20, 21)] []), (.mk [(22, 23), (23, 24), (24, 25)] []), (.mk [(26, 27), (27, 28), (28, 29), (30, 31)] [])]), (.mk [(35, 36), (40, 41), (43, 44)] [(.mk [(32, 33), (33, 34)] []), (.mk [(36, 37), (37, 38), (38, 39)] []), (.mk [(41, 42), (42, 43)] []), (.mk [(45, 46), (46, 47), (47, 48), (48, 49)] [])])]) := by decide
  have e46 : applyOp 3 (.mk [(15, 16), (31, 32)] [(.mk [(2, 3), (5, 6), (10, 11)] [(.mk [(0, 1), (1, 2)] []), (.mk [(3, 4), (4, 5)] []), (.mk [(6, 7), (7, 8), (8, 9), (9, 10)] []), (.mk [(11, 12), (12, 13), (13, 14), (14, 15)] [])]), (.mk [(18, 19), (21, 22), (25, 26)] [(.mk [(16, 17), (17, 18)] []), (.mk [(19, 20), (20, 21)] []), (.mk [(22, 23), (23, 24), (24, 25)] []), (.mk [(26, 27), (27, 28), (28, 29), (30, 31)] [])]), (.mk [(35, 36), (40, 41), (43, 44)] [(.mk [(32, 33), (33, 34)] []), (.mk [(36, 37), (37, 38), (38, 39)] []), (.mk [(41, 42), (42, 43)] []), (.mk [(45, 46), (46, 47), (47, 48), (48, 49)] [])])]) (Op.ins 29 30) =
      (.mk [(15, 16), (31, 32)] [(.mk [(2, 3), (5, 6), (10, 11)] [(.mk [(0, 1), (1, 2)] []), (.mk [(3, 4), (4, 5)] []), (.mk [(6, 7), (7, 8), (8, 9), (9, 10)] []), (.mk [(11, 12), (12, 13), (13, 14), (14, 15)] [])]), (.mk [(18, 19), (21, 22), (25, 26)] [(.mk [(16, 17), (17, 18)] []), (.mk [(19, 20), (20, 21)] []), (.mk [(22, 23), (23, 24), (24, 25)] []), (.mk [(26, 27), (27, 28), (28, 29), (29, 30), (30, 31)] [])]), (.mk [(35, 36), (40, 41), (43, 44)] [(.mk [(32, 33), (33, 34)] []), (.mk [(36, 37), (37, 38), (38, 39)] []), (.mk [(41, 42), (42, 43)] []), (.mk [(45, 46), (46, 47), (47, 48), (48, 49)] [])])]) := by decide
  have e47 : applyOp 3 (.mk [(15, 16), (31, 32)] [(.mk [(2, 3), (5, 6), (10, 11)] [(.mk [(0, 1), (1, 2)] []), (.mk [(3, 4), (4, 5)] []), (.mk [(6, 7), (7, 8), (8, 9), (9, 10)] []), (.mk [(11, 12), (12, 13), (13, 14), (14, 15)] [])]), (.mk [(18, 19), (21, 22), (25, 26)] [(.mk [(16, 17), (17, 18)] []), (.mk [(19, 20), (20, 21)] []), (.mk [(22, 23), (23, 24), (24, 25)] []), (.mk [(26, 27), (27, 28), (28, 29), (29, 30), (30, 31)] [])]), (.mk [(35, 36), (40, 41), (43, 44)] [(.mk [(32, 33), (33, 34)] []), (.mk [(36, 37), (37, 38), (38, 39)] []), (.mk [(41, 42), (42, 43)] []), (.mk [(45, 46), (46, 47), (47, 48), (48, 49)] [])])]) (Op.ins 34 35) =
      (.mk [(15, 16), (31, 32)] [(.mk [(2, 3), (5, 6), (10, 11)] [(.mk [(0, 1), (1, 2)] []), (.mk [(3, 4), (4, 5)] []), (.mk [(6, 7), (7, 8), (8, 9), (9, 10)] []), (.mk [(11, 12), (12, 13), (13, 14), (14, 15)] [])]), (.mk [(18, 19), (21, 22), (25, 26)] [(.mk [(16, 17), (17, 18)] []), (.mk [(19, 20), (20, 21)] []), (.mk [(22, 23), (23, 24), (24, 25)] []), (.mk [(26, 27), (27, 28), (28, 29), (29, 30), (30, 31)] [])]), (.mk [(35, 36), (40, 41), (43, 44)] [(.mk [(32, 33), (33, 34), (34, 35)] []), (.mk [(36, 37), (37, 38), (38, 39)] []), (.mk [(41, 42), (42, 43)] []), (.mk [(45, 46), (46, 47), (47, 48), (48, 49)] [])])]) := by decide
  have e48 : applyOp 3 (.mk [(15, 16), (31, 32)] [(.mk [(2, 3), (5, 6), (10, 11)] [(.mk [(0, 1), (1, 2)] []), (.mk [(3, 4), (4, 5)] []), (.mk [(6, 7), (7, 8), (8, 9), (9, 10)] []), (.mk [(11, 12), (12, 13), (13, 14), (14, 15)] [])]), (.mk [(18, 19), (21, 22), (25, 26)] [(.mk [(16, 17), (17, 18)] []), (.mk [(19, 20), (20, 21)] []), (.mk [(22, 23), (23, 24), (24, 25)] []), (.mk [(26, 27), (27, 28), (28, 29), (29, 30), (30, 31)] [])]), (.mk [(35, 36), (40, 41), (43, 44)] [(.mk [(32, 33), (33, 34), (34, 35)] []), (.mk [(36, 37), (37, 38), (38, 39)] []), (.mk [(41, 42), (42, 43)] []), (.mk [(45, 46), (46, 47), (47, 48), (48, 49)] [])])]) (Op.ins 39 40) =
      (.mk [(15, 16), (31, 32)] [(.mk [(2, 3), (5, 6), (10, 11)] [(.mk [(0, 1), (1, 2)] []), (.mk [(3, 4), (4, 5)] []), (.mk [(6, 7), (7, 8), (8, 9), (9, 10)] []), (.mk [(11, 12), (12, 13), (13, 14), (14, 15)] [])]), (.mk [(18, 19), (21, 22), (25, 26)] [(.mk [(16, 17), (17, 18)] []), (.mk [(19, 20), (20, 21)] []), (.mk [(22, 23), (23, 24), (24, 25)] []), (.mk [(26, 27), (27, 28), (28, 29), (29, 30), (30, 31)] [])]), (.mk [(35, 36), (40, 41), (43, 44)] [(.mk [(32, 33), (33, 34), (34, 35)] []), (.mk [(36, 37), (37, 38), (38, 39), (39, 40)] []), (.mk [(41, 42), (42, 43)] []), (.mk [(45, 46), (46, 47), (47, 48), (48, 49)] [])])]) := by decide
  have e49 : applyOp 3 (.mk [(15, 16), (31, 32)] [(.mk [(2, 3), (5, 6), (10, 11)] [(.mk [(0, 1), (1, 2)] []), (.mk [(3, 4), (4, 5)] []), (.mk [(6, 7), (7, 8), (8, 9), (9, 10)] []), (.mk [(11, 12), (12, 13), (13, 14), (14, 15)] [])]), (.mk [(18, 19), (21, 22), (25, 26)] [(.mk [(16, 17), (17, 18)] []), (.mk [(19, 20), (20, 21)] []), (.mk [(22, 23), (23, 24), (24, 25)] []), (.mk [(26, 27), (27, 28), (28, 29), (29, 30), (30, 31)] [])]), (.mk [(35, 36), (40, 41), (43, 44)] [(.mk [(32, 33), (33, 34), (34, 35)] []), (.mk [(36, 37), (37, 38), (38, 39), (39, 40)] []), (.mk [(41, 42), (42, 43)] []), (.mk [(45, 46), (46, 47), (47, 48), (48, 49)] [])])]) (Op.ins 44 45) =
      (.mk [(15, 16), (31, 32)] [(.mk [(2, 3), (5, 6), (10, 11)] [(.mk [(0, 1), (1, 2)] []), (.mk [(3, 4), (4, 5)] []), (.mk [(6, 7), (7, 8), (8, 9), (9, 10)] []), (.mk [(11, 12), (12, 13), (13, 14), (14, 15)] [])]), (.mk [(18, 19), (21, 22), (25, 26)] [(.mk [(16, 17), (17, 18)] []), (.mk [(19, 20), (20, 21)] []), (.mk [(22, 23), (23, 24), (24, 25)] []), (.mk [(26, 27), (27, 28), (28, 29), (29, 30), (30, 31)] [])]), (.mk [(35, 36), (40, 41), (43, 44)] [(.mk [(32, 33), (33, 34), (34, 35)] []), (.mk [(36, 37), (37, 38), (38, 39), (39, 40)] []), (.mk [(41, 42), (42, 43)] []), (.mk [(44, 45), (45, 46), (46, 47), (47, 48), (48, 49)] [])])]) := by decide
  have e50 : applyOp 3 (.mk [(15, 16), (31, 32)] [(.mk [(2, 3), (5, 6), (10, 11)] [(.mk [(0, 1), (1, 2)] []), (.mk [(3, 4), (4, 5)] []), (.mk [(6, 7), (7, 8), (8, 9), (9, 10)] []), (.mk [(11, 12), (12, 13), (13, 14), (14, 15)] [])]), (.mk [(18, 19), (21, 22), (25, 26)] [(.mk [(16, 17), (17, 18)] []), (.mk [(19, 20), (20, 21)] []), (.mk [(22, 23), (23, 24), (24, 25)] []), (.mk [(26, 27), (27, 28), (28, 29), (29, 30), (30, 31)] [])]), (.mk [(35, 36), (40, 41), (43, 44)] [(.mk [(32, 33), (33, 34), (34, 35)] []), (.mk [(36, 37), (37, 38), (38, 39), (39, 40)] []), (.mk [(41, 42), (42, 43)] []), (.mk [(44, 45), (45, 46), (46, 47), (47, 48), (48, 49)] [])])]) (Op.ins 49 50) =
      (.mk [(15, 16), (31, 32)] [(.mk [(2, 3), (5, 6), (10, 11)] [(.mk [(0, 1), (1, 2)] []), (.mk [(3, 4), (4, 5)] []), (.mk [(6, 7), (7, 8), (8, 9), (9, 10)] []), (.mk [(11, 12), (12, 13), (13, 14), (14, 15)] [])]), (.mk [(18, 19), (21, 22), (25, 26)] [(.mk [(16, 17), (17, 18)] []), (.mk [(19, 20), (20, 21)] []), (.mk [(22, 23), (23, 24), (24, 25)] []), (.mk [(26, 27), (27, 28), (28, 29), (29, 30), (30, 31)] [])]), (.mk [(35, 36), (40, 41), (43, 44), (46, 47)] [(.mk [(32, 33), (33, 34), (34, 35)] []), (.mk [(36, 37), (37, 38), (38, 39), (39, 40)] []), (.mk [(41, 42), (42, 43)] []), (.mk [(44, 45), (45, 46)] []), (.mk [(47, 48), (48, 49), (49, 50)] [])])]) := by decide
  have e51 : applyOp 3 (.mk [(15, 16), (31, 32)] [(.mk [(2, 3), (5, 6), (10, 11)] [(.mk [(0, 1), (1, 2)] []), (.mk [(3, 4), (4, 5)] []), (.mk [(6, 7), (7, 8), (8, 9), (9, 10)] []), (.mk [(11, 12), (12, 13), (13, 14), (14, 15)] [])]), (.mk [(18, 19), (21, 22), (25, 26)] [(.mk [(16, 17), (17, 18)] []), (.mk [(19, 20), (20, 21)] []), (.mk [(22, 23), (23, 24), (24, 25)] []), (.mk [(26, 27), (27, 28), (28, 29), (29, 30), (30, 31)] [])]), (.mk [(35, 36), (40, 41), (43, 44), (46, 47)] [(.mk [(32, 33), (33, 34), (34, 35)] []), (.mk [(36, 37), (37, 38), (38, 39), (39, 40)] []), (.mk [(41, 42), (42, 43)] []), (.mk [(44, 45), (45, 46)] []), (.mk [(47, 48), (48, 49), (49, 50)] [])])]) (Op.ins 5 6) =
      (.mk [(15, 16), (31, 32)] [(.mk [(2, 3), (5, 6), (10, 11)] [(.mk [(0, 1), (1, 2)] []), (.mk [(3, 4), (4, 5)] []), (.mk [(6, 7), (7, 8), (8, 9), (9, 10)] []), (.mk [(11, 12), (12, 13), (13, 14), (14, 15)] [])]), (.mk [(18, 19), (21, 22), (25, 26)] [(.mk [(16, 17), (17, 18)] []), (.mk [(19, 20), (20, 21)] []), (.mk [(22, 23), (23, 24), (24, 25)] []), (.mk [(26, 27), (27, 28), (28, 29), (29, 30), (30, 31)] [])]), (.mk [(35, 36), (40, 41), (43, 44), (46, 47)] [(.mk [(32, 33), (33, 34), (34, 35)] []), (.mk [(36, 37), (37, 38), (38, 39), (39, 40)] []), (.mk [(41, 42), (42, 43)] []), (.mk [(44, 45), (45, 46)] []), (.mk [(47, 48), (48, 49), (49, 50)] [])])]) := by decide
  have e52 : applyOp 3 (.mk [(15, 16), (31, 32)] [(.mk [(2, 3), (5, 6), (10, 11)] [(.mk [(0, 1), (1, 2)] []), (.mk [(3, 4), (4, 5)] []), (.mk [(6, 7), (7, 8), (8, 9), (9, 10)] []), (.mk [(11, 12), (12, 13), (13, 14), (14, 15)] [])]), (.mk [(18, 19), (21, 22), (25, 26)] [(.mk [(16, 17), (17, 18)] []), (.mk [(19, 20), (20, 21)] []), (.mk [(22, 23), (23, 24), (24, 25)] []), (.mk [(26, 27), (27, 28), (28, 29), (29, 30), (30, 31)] [])]), (.mk [(35, 36), (40, 41), (43, 44), (46, 47)] [(.mk [(32, 33), (33, 34), (34, 35)] []), (.mk [(36, 37), (37, 38), (38, 39), (39, 40)] []), (.mk [(41, 42), (42, 43)] []), (.mk [(44, 45), (45, 46)] []), (.mk [(47, 48), (48, 49), (49, 50)] [])])]) (Op.ins 10 11) =
      (.mk [(15, 16), (31, 32)] [(.mk [(2, 3), (5, 6), (10, 11)] [(.mk [(0, 1), (1, 2)] []), (.mk [(3, 4), (4, 5)] []), (.mk [(6, 7), (7, 8), (8, 9), (9, 10)] []), (.mk [(11, 12), (12, 13), (13, 14), (14, 15)] [])]), (.mk [(18, 19), (21, 22), (25, 26)] [(.mk [(16, 17), (17, 18)] []), (.mk [(19, 20), (20, 21)] []), (.mk [(22, 23), (23, 24), (24, 25)] []), (.mk [(26, 27), (27, 28), (28, 29), (29, 30), (30, 31)] [])]), (.mk [(35, 36), (40, 41), (43, 44), (46, 47)] [(.mk [(32, 33), (33, 34), (34, 35)] []), (.mk [(36, 37), (37, 38), (38, 39), (39, 40)] []), (.mk [(41, 42), (42, 43)] []), (.mk [(44, 45), (45, 46)] []), (.mk [(47, 48), (48, 49), (49, 50)] [])])]) := by decide
  have e53 : applyOp 3 (.mk [(15, 16), (31, 32)] [(.mk [(2, 3), (5, 6), (10, 11)] [(.mk [(0, 1), (1, 2)] []), (.mk [(3, 4), (4, 5)] []), (.mk [(6, 7), (7, 8), (8, 9), (9, 10)] []), (.mk [(11, 12), (12, 13), (13, 14), (14, 15)] [])]), (.mk [(18, 19), (21, 22), (25, 26)] [(.mk [(16, 17), (17, 18)] []), (.mk [(19, 20), (20, 21)] []), (.mk [(22, 23), (23, 24), (24, 25)] []), (.mk [(26, 27), (27, 28), (28, 29), (29, 30), (30, 31)] [])]), (.mk [(35, 36), (40, 41), (43, 44), (46, 47)] [(.mk [(32, 33), (33, 34), (34, 35)] []), (.mk [(36, 37), (37, 38), (38, 39), (39, 40)] []), (.mk [(41, 42), (42, 43)] []), (.mk [(44, 45), (45, 46)] []), (.mk [(47, 48), (48, 49), (49, 50)] [])])]) (Op.ins 15 16) =
      (.mk [(15, 16), (31, 32)] [(.mk [(2, 3), (5, 6), (10, 11)] [(.mk [(0, 1), (1, 2)] []), (.mk [(3, 4), (4, 5)] []), (.mk [(6, 7), (7, 8), (8, 9), (9, 10)] []), (.mk [(11, 12), (12, 13), (13, 14), (14, 15)] [])]), (.mk [(18, 19), (21, 22), (25, 26)] [(.mk [(16, 17), (17, 18)] []), (.mk [(19, 20), (20, 21)] []), (.mk [(22, 23), (23, 24), (24, 25)] []), (.mk [(26, 27), (27, 28), (28, 29), (29, 30), (30, 31)] [])]), (.mk [(35, 36), (40, 41), (43, 44), (46, 47)] [(.mk [(32, 33), (33, 34), (34, 35)] []), (.mk [(36, 37), (37, 38), (38, 39), (39, 40)] []), (.mk [(41, 42), (42, 43)] []), (.mk [(44, 45), (45, 46)] []), (.mk [(47, 48), (48, 49), (49, 50)] [])])]) := by decide
  have e54 : applyOp 3 (.mk [(15, 16), (31, 32)] [(.mk [(2, 3), (5, 6), (10, 11)] [(.mk [(0, 1), (1, 2)] []), (.mk [(3, 4), (4, 5)] []), (.mk [(6, 7), (7, 8), (8, 9), (9, 10)] []), (.mk [(11, 12), (12, 13), (13, 14), (14, 15)] [])]), (.mk [(18, 19), (21, 22), (25, 26)] [(.mk [(16, 17), (17, 18)] []), (.mk [(19, 20), (20, 21)] []), (.mk [(22, 23), (23, 24), (24, 25)] []), (.mk [(26, 27), (27, 28), (28, 29), (29, 30), (30, 31)] [])]), (.mk [(35, 36), (40, 41), (43, 44), (46, 47)] [(.mk [(32, 33), (33, 34), (34, 35)] []), (.mk [(36, 37), (37, 38), (38, 39), (39, 40)] []), (.mk [(41, 42), (42, 43)] []), (.mk [(44, 45), (45, 46)] []), (.mk [(47, 48), (48, 49), (49, 50)] [])])]) (Op.ins 20 21) =
      (.mk [(15, 16), (31, 32)] [(.mk [(2, 3), (5, 6), (10, 11)] [(.mk [(0, 1), (1, 2)] []), (.mk [(3, 4), (4, 5)] []), (.mk [(6, 7), (7, 8), (8, 9), (9, 10)] []), (.mk [(11, 12), (12, 13), (13, 14), (14, 15)] [])]), (.mk [(18, 19), (21, 22), (25, 26)] [(.mk [(16, 17), (17, 18)] []), (.mk [(19, 20), (20, 21)] []), (.mk [(22, 23), (23, 24), (24, 25)] []), (.mk [(26, 27), (27, 28), (28, 29), (29, 30), (30, 31)] [])]), (.mk [(35, 36), (40, 41), (43, 44), (46, 47)] [(.mk [(32, 33), (33, 34), (34, 35)] []), (.mk [(36, 37), (37, 38), (38, 39), (39, 40)] []), (.mk [(41, 42), (42, 43)] []), (.mk [(44, 45), (45, 46)] []), (.mk [(47, 48), (48, 49), (49, 50)] [])])]) := by decide
  have e55 : applyOp 3 (.mk [(15, 16), (31, 32)] [(.mk [(2, 3), (5, 6), (10, 11)] [(.mk [(0, 1), (1, 2)] []), (.mk [(3, 4), (4, 5)] []), (.mk [(6, 7), (7, 8), (8, 9), (9, 10)] []), (.mk [(11, 12), (12, 13), (13, 14), (14, 15)] [])]), (.mk [(18, 19), (21, 22), (25, 26)] [(.mk [(16, 17), (17, 18)] []), (.mk [(19, 20), (20, 21)] []), (.mk [(22, 23), (23, 24), (24, 25)] []), (.mk [(26, 27), (27, 28), (28, 29), (29, 30), (30, 31)] [])]), (.mk [(35, 36), (40, 41), (43, 44), (46, 47)] [(.mk [(32, 33), (33, 34), (34, 35)] []), (.mk [(36, 37), (37, 38), (38, 39), (39, 40)] []), (.mk [(41, 42), (42, 43)] []), (.mk [(44, 45), (45, 46)] []), (.mk [(47, 48), (48, 49), (49, 50)] [])])]) (Op.ins 25 26) =
      (.mk [(15, 16), (31, 32)] [(.mk [(2, 3), (5, 6), (10, 11)] [(.mk [(0, 1), (1, 2)] []), (.mk [(3, 4), (4, 5)] []), (.mk [(6, 7), (7, 8), (8, 9), (9, 10)] []), (.mk [(11, 12), (12, 13), (13, 14), (14, 15)] [])]), (.mk [(18, 19), (21, 22), (25, 26)] [(.mk [(16, 17), (17, 18)] []), (.mk [(19, 20), (20, 21)] []), (.mk [(22, 23), (23, 24), (24, 25)] []), (.mk [(26, 27), (27, 28), (28, 29), (29, 30), (30, 31)] [])]), (.mk [(35, 36), (40, 41), (43, 44), (46, 47)] [(.mk [(32, 33), (33, 34), (34, 35)] []), (.mk [(36, 37), (37, 38), (38, 39), (39, 40)] []), (.mk [(41, 42), (42, 43)] []), (.mk [(44, 45), (45, 46)] []), (.mk [(47, 48), (48, 49), (49, 50)] [])])]) := by decide
  have e56 : applyOp 3 (.mk [(15, 16), (31, 32)] [(.mk [(2, 3), (5, 6), (10, 11)] [(.mk [(0, 1), (1, 2)] []), (.mk [(3, 4), (4, 5)] []), (.mk [(6, 7), (7, 8), (8, 9), (9, 10)] []), (.mk [(11, 12), (12, 13), (13, 14), (14, 15)] [])]), (.mk [(18, 19), (21, 22), (25, 26)] [(.mk [(16, 17), (17, 18)] []), (.mk [(19, 20), (20, 21)] []), (.mk [(22, 23), (23, 24), (24, 25)] []), (.mk [(26, 27), (27, 28), (28, 29), (29, 30), (30, 31)] [])]), (.mk [(35, 36), (40, 41), (43, 44), (46, 47)] [(.mk [(32, 33), (33, 34), (34, 35)] []), (.mk [(36, 37), (37, 38), (38, 39), (39, 40)] []), (.mk [(41, 42), (42, 43)] []), (.mk [(44, 45), (45, 46)] []), (.mk [(47, 48), (48, 49), (49, 50)] [])])]) (Op.ins 30 31) =
      (.mk [(15, 16), (31, 32)] [(.mk [(2, 3), (5, 6), (10, 11)] [(.mk [(0, 1), (1, 2)] []), (.mk [(3, 4), (4, 5)] []), (.mk [(6, 7), (7, 8), (8, 9), (9, 10)] []), (.mk [(11, 12), (12, 13), (13, 14), (14, 15)] [])]), (.mk [(18, 19), (21, 22), (25, 26)] [(.mk [(16, 17), (17, 18)] []), (.mk [(19, 20), (20, 21)] []), (.mk [(22, 23), (23, 24), (24, 25)] []), (.mk [(26, 27), (27, 28), (28, 29), (29, 30), (30, 31)] [])]), (.mk [(35, 36), (40, 41), (43, 44), (46, 47)] [(.mk [(32, 33), (33, 34), (34, 35)] []), (.mk [(36, 37), (37, 38), (38, 39), (39, 40)] []), (.mk [(41, 42), (42, 43)] []), (.mk [(44, 45), (45, 46)] []), (.mk [(47, 48), (48, 49), (49, 50)] [])])]) := by decide
  have e57 : applyOp 3 (.mk [(15, 16), (31, 32)] [(.mk [(2, 3), (5, 6), (10, 11)] [(.mk [(0, 1), (1, 2)] []), (.mk [(3, 4), (4, 5)] []), (.mk [(6, 7), (7, 8), (8, 9), (9, 10)] []), (.mk [(11, 12), (12, 13), (13, 14), (14, 15)] [])]), (.mk [(18, 19), (21, 22), (25, 26)] [(.mk [(16, 17), (17, 18)] []), (.mk [(19, 20), (20, 21)] []), (.mk [(22, 23), (23, 24), (24, 25)] []), (.mk [(26, 27), (27, 28), (28, 29), (29, 30), (30, 31)] [])]), (.mk [(35, 36), (40, 41), (43, 44), (46, 47)] [(.mk [(32, 33), (33, 34), (34, 35)] []), (.mk [(36, 37), (37, 38), (38, 39), (39, 40)] []), (.mk [(41, 42), (42, 43)] []), (.mk [(44, 45), (45, 46)] []), (.mk [(47, 48), (48, 49), (49, 50)] [])])]) (Op.ins 35 36) =
      (.mk [(15, 16), (31, 32)] [(.mk [(2, 3), (5, 6), (10, 11)] [(.mk [(0, 1), (1, 2)] []), (.mk [(3, 4), (4, 5)] []), (.mk [(6, 7), (7, 8), (8, 9), (9, 10)] []), (.mk [(11, 12), (12, 13), (13, 14), (14, 15)] [])]), (.mk [(18, 19), (21, 22), (25, 26)] [(.mk [(16, 17), (17, 18)] []), (.mk [(19, 20), (20, 21)] []), (.mk [(22, 23), (23, 24), (24, 25)] []), (.mk [(26, 27), (27, 28), (28, 29), (29, 30), (30, 31)] [])]), (.mk [(35, 36), (40, 41), (43, 44), (46, 47)] [(.mk [(32, 33), (33, 34), (34, 35)] []), (.mk [(36, 37), (37, 38), (38, 39), (39, 40)] []), (.mk [(41, 42), (42, 43)] []), (.mk [(44, 45), (45, 46)] []), (.mk [(47, 48), (48, 49), (49, 50)] [])])]) := by decide
  have e58 : applyOp 3 (.mk [(15, 16), (31, 32)] [(.mk [(2, 3), (5, 6), (10, 11)] [(.mk [(0, 1), (1, 2)] []), (.mk [(3, 4), (4, 5)] []), (.mk [(6, 7), (7, 8), (8, 9), (9, 10)] []), (.mk [(11, 12), (12, 13), (13, 14), (14, 15)] [])]), (.mk [(18, 19), (21, 22), (25, 26)] [(.mk [(16, 17), (17, 18)] []), (.mk [(19, 20), (20, 21)] []), (.mk [(22, 23), (23, 24), (24, 25)] []), (.mk [(26, 27), (27, 28), (28, 29), (29, 30), (30, 31)] [])]), (.mk [(35, 36), (40, 41), (43, 44), (46, 47)] [(.mk [(32, 33), (33, 34), (34, 35)] []), (.mk [(36, 37), (37, 38), (38, 39), (39, 40)] []), (.mk [(41, 42), (42, 43)] []), (.mk [(44, 45), (45, 46)] []), (.mk [(47, 48), (48, 49), (49, 50)] [])])]) (Op.ins 40 41) =
      (.mk [(15, 16), (31, 32)] [(.mk [(2, 3), (5, 6), (10, 11)] [(.mk [(0, 1), (1, 2)] []), (.mk [(3, 4), (4, 5)] []), (.mk [(6, 7), (7, 8), (8, 9), (9, 10)] []), (.mk [(11, 12), (12, 13), (13, 14), (14, 15)] [])]), (.mk [(18, 19), (21, 22), (25, 26)] [(.mk [(16, 17), (17, 18)] []), (.mk [(19, 20), (20, 21)] []), (.mk [(22, 23), (23, 24), (24, 25)] []), (.mk [(26, 27), (27, 28), (28, 29), (29, 30), (30, 31)] [])]), (.mk [(35, 36), (40, 41), (43, 44), (46, 47)] [(.mk [(32, 33), (33, 34), (34, 35)] []), (.mk [(36, 37), (37, 38), (38, 39), (39, 40)] []), (.mk [(41, 42), (42, 43)] []), (.mk [(44, 45), (45, 46)] []), (.mk [(47, 48), (48, 49), (49, 50)] [])])]) := by decide
  have e59 : applyOp 3 (.mk [(15, 16), (31, 32)] [(.mk [(2, 3), (5, 6), (10, 11)] [(.mk [(0, 1), (1, 2)] []), (.mk [(3, 4), (4, 5)] []), (.mk [(6, 7), (7, 8), (8, 9), (9, 10)] []), (.mk [(11, 12), (12, 13), (13, 14), (14, 15)] [])]), (.mk [(18, 19), (21, 22), (25, 26)] [(.mk [(16, 17), (17, 18)] []), (.mk [(19, 20), (20, 21)] []), (.mk [(22, 23), (23, 24), (24, 25)] []), (.mk [(26, 27), (27, 28), (28, 29), (29, 30), (30, 31)] [])]), (.mk [(35, 36), (40, 41), (43, 44), (46, 47)] [(.mk [(32, 33), (33, 34), (34, 35)] []), (.mk [(36, 37), (37, 38), (38, 39), (39, 40)] []), (.mk [(41, 42), (42, 43)] []), (.mk [(44, 45), (45, 46)] []), (.mk [(47, 48), (48, 49), (49, 50)] [])])]) (Op.ins 45 46) =
      (.mk [(15, 16), (31, 32)] [(.mk [(2, 3), (5, 6), (10, 11)] [(.mk [(0, 1), (1, 2)] []), (.mk [(3, 4), (4, 5)] []), (.mk [(6, 7), (7, 8), (8, 9), (9, 10)] []), (.mk [(11, 12), (12, 13), (13, 14), (14, 15)] [])]), (.mk [(18, 19), (21, 22), (25, 26)] [(.mk [(16, 17), (17, 18)] []), (.mk [(19, 20), (20, 21)] []), (.mk [(22, 23), (23, 24), (24, 25)] []), (.mk [(26, 27), (27, 28), (28, 29), (29, 30), (30, 31)] [])]), (.mk [(35, 36), (40, 41), (43, 44), (46, 47)] [(.mk [(32, 33), (33, 34), (34, 35)] []), (.mk [(36, 37), (37, 38), (38, 39), (39, 40)] []), (.mk [(41, 42), (42, 43)] []), (.mk [(44, 45), (45, 46)] []), (.mk [(47, 48), (48, 49), (49, 50)] [])])]) := by decide
  have e60 : applyOp 3 (.mk [(15, 16), (31, 32)] [(.mk [(2, 3), (5, 6), (10, 11)] [(.mk [(0, 1), (1, 2)] []), (.mk [(3, 4), (4, 5)] []), (.mk [(6, 7), (7, 8), (8, 9), (9, 10)] []), (.mk [(11, 12), (12, 13), (13, 14), (14, 15)] [])]), (.mk [(18, 19), (21, 22), (25, 26)] [(.mk [(16, 17), (17, 18)] []), (.mk [(19, 20), (20, 21)] []), (.mk [(22, 23), (23, 24), (24, 25)] []), (.mk [(26, 27), (27, 28), (28, 29), (29, 30), (30, 31)] [])]), (.mk [(35, 36), (40, 41), (43, 44), (46, 47)] [(.mk [(32, 33), (33, 34), (34, 35)] []), (.mk [(36, 37), (37, 38), (38, 39), (39, 40)] []), (.mk [(41, 42), (42, 43)] []), (.mk [(44, 45), (45, 46)] []), (.mk [(47, 48), (48, 49), (49, 50)] [])])]) (Op.ins 50 51) =
      (.mk [(15, 16), (31, 32)] [(.mk [(2, 3), (5, 6), (10, 11)] [(.mk [(0, 1), (1, 2)] []), (.mk [(3, 4), (4, 5)] []), (.mk [(6, 7), (7, 8), (8, 9), (9, 10)] []), (.mk [(11, 12), (12, 13), (13, 14), (14, 15)] [])]), (.mk [(18, 19), (21, 22), (25, 26)] [(.mk [(16, 17), (17, 18)] []), (.mk [(19, 20), (20, 21)] []), (.mk [(22, 23), (23, 24), (24, 25)] []), (.mk [(26, 27), (27, 28), (28, 29), (29, 30), (30, 31)] [])]), (.mk [(35, 36), (40, 41), (43, 44), (46, 47)] [(.mk [(32, 33), (33, 34), (34, 35)] []), (.mk [(36, 37), (37, 38), (38, 39), (39, 40)] []), (.mk [(41, 42), (42, 43)] []), (.mk [(44, 45), (45, 46)] []), (.mk [(47, 48), (48, 49), (49, 50), (50, 51)] [])])]) := by decide
  have hops : c3insertOps = [(Op.ins 0 1),
      (Op.ins 5 6),
      (Op.ins 10 11),
      (Op.ins 15 16),
      (Op.ins 20 21),
      (Op.ins 25 26),
      (Op.ins 30 31),
      (Op.ins 35 36),
      (Op.ins 40 41),
      (Op.ins 45 46),
      (Op.ins 1 2),
      (Op.ins 6 7),
      (Op.ins 11 12),
      (Op.ins 16 17),
      (Op.ins 21 22),
      (Op.ins 26 27),
      (Op.ins 31 32),
      (Op.ins 36 37),
      (Op.ins 41 42),
      (Op.ins 46 47),
      (Op.ins 2 3),
      (Op.ins 7 8),
      (Op.ins 12 13),
      (Op.ins 17 18),
      (Op.ins 22 23),
      (Op.ins 27 28),
      (Op.ins 32 33),
      (Op.ins 37 38),
      (Op.ins 42 43),
      (Op.ins 47 48),
      (Op.ins 3 4),
      (Op.ins 8 9),
      (Op.ins 13 14),
      (Op.ins 18 19),
      (Op.ins 23 24),
      (Op.ins 28 29),
      (Op.ins 33 34),
      (Op.ins 38 39),
      (Op.ins 43 44),
      (Op.ins 48 49),
      (Op.ins 4 5),
      (Op.ins 9 10),
      (Op.ins 14 15),
      (Op.ins 19 20),
      (Op.ins 24 25),
      (Op.ins 29 30),
      (Op.ins 34 35),
      (Op.ins 39 40),
      (Op.ins 44 45),
      (Op.ins 49 50),
      (Op.ins 5 6),
      (Op.ins 10 11),
      (Op.ins 15 16),
      (Op.ins 20 21),
      (Op.ins 25 26),
      (Op.ins 30 31),
      (Op.ins 35 36),
      (Op.ins 40 41),
      (Op.ins 45 46),
      (Op.ins 50 51)] := by decide
  show runOps 3 c3insertOps = _
  rw [hops]
  simp only [runOps, List.foldl_cons, List.foldl_nil]
  rw [e1, e2, e3, e4, e5, e6, e7, e8, e9, e10, e11, e12, e13, e14, e15, e16, e17, e18, e19, e20, e21, e22, e23, e24, e25, e26, e27, e28, e29, e30, e31, e32, e33, e34, e35, e36, e37, e38, e39, e40, e41, e42, e43, e44, e45, e46, e47, e48, e49, e50, e51, e52, e53, e54, e55, e56, e57, e58, e59, e60]

/-- C2 (amended): whenever a child node underflows (`size < B - 1`) after a
removal, `check_child_underflow` applies exactly the first applicable rule
of this strict priority order and then stops: (1) if a left sibling exists
with size `≤ B`, merge the child into the left sibling pulling down the
separating parent key; (2) else if a right sibling exists with size `≤ B`,
merge the right sibling into the child pulling down the separating key;
(3) else if a left sibling exists with size `> B`, borrow its largest
key/value through the parent into the child; (4) else if a right sibling
exists with size `> B`, borrow its smallest key/value through the parent
into the child. -/
theorem c2_check_child_underflow_rule_order (B : Nat) (parent : Node) (child_idx : Nat) :
    check_child_underflow B parent child_idx =
      checkChildUnderflowOrdered B parent child_idx := by
  cases hc : parent.children[child_idx]? with
  | none =>
    simp [check_child_underflow, checkChildUnderflowOrdered,
      List.get?_eq_getElem?, hc]
  | some child =>
    simp only [check_child_underflow, checkChildUnderflowOrdered,
      List.get?_eq_getElem?, hc]
    by_cases h0 : child.size < B - 1
    · by_cases hA : ¬child_idx = 0 ∧ sizeAt parent (child_idx - 1) ≤ B
      · simp [h0, hA]
      · by_cases hR : (child_idx < 2 * B ∧ parent.children[child_idx + 1]?.isSome = true) ∧
            sizeAt parent (child_idx + 1) ≤ B
        · simp [h0, hA, hR]
        · by_cases hL : ¬child_idx = 0
          · have hgt : B < sizeAt parent (child_idx - 1) := by
              rcases Nat.lt_or_ge B (sizeAt parent (child_idx - 1)) with hx | hx
              · exact hx
              · exact absurd ⟨hL, hx⟩ hA
            simp [h0, hA, hR, hL, hgt]
          · by_cases hRB : child_idx < 2 * B ∧ parent.children[child_idx + 1]?.isSome = true
            · have hgt : B < sizeAt parent (child_idx + 1) := by
                rcases Nat.lt_or_ge B (sizeAt parent (child_idx + 1)) with hx | hx
                · exact hx
                · exact absurd ⟨hRB, hx⟩ hR
              simp [h0, hA, hR, hL, hRB, hgt]
            · simp [h0, hA, hR, hL, hRB]
    · simp [h0]

/-- C2 counterexample: the rebalancing priority stated in the claim — borrow
from the right sibling before borrowing from the left sibling — is not the
order the code uses.  Erasing key `30` from the reachable tree `c2tree`
(root `{20, 40}` over leaves of sizes 3, 1, 3) underflows the middle leaf
with both merge rules inapplicable and both borrows enabled; the code
borrows from the left sibling, while the claim's order would borrow from
the right one, so on the parent state `c2parent` the two rule orders give
different trees. -/
theorem c2_spec_priority_order_refuted :
    (BTreeMap.erase 2 30 c2tree).2 =
      (.mk [(15, 16), (40, 41)]
        [.mk [(5, 6), (10, 11)] [], .mk [(20, 21)] [],
         .mk [(50, 51), (60, 61), (70, 71)] []]) ∧
    check_child_underflow 2 c2parent 1 ≠ checkChildUnderflowSpecOrder 2 c2parent 1 := by
  constructor
  · rw [c2tree_eq]; decide
  · decide

/-- C9: `Node::split()` returns null and leaves the node unchanged whenever
the key count is below `2B`; when the key count equals `2B` it moves the
first `B` keys/values/children into a new node, keeps the remaining halves
shifted to the front, and returns the new node, whose key at local index
`B - 1` is the original key at index `B - 1` — the median element the
caller promotes. -/
theorem c9_split_returns_first_half (B : Nat) (u : Node) (hB : 1 ≤ B) :
    (u.size < 2 * B → Node.split B u = (none, u)) ∧
    (u.size = 2 * B →
      Node.split B u =
        (some (.mk (u.kvs.take B) (u.children.take B)),
         .mk (u.kvs.drop B) (u.children.drop B)) ∧
      (u.kvs.take B).get? (B - 1) = u.kvs.get? (B - 1)) := by
  constructor
  · intro h
    have h' : u.kvs.length < 2 * B := h
    simp [Node.split, h']
  · intro h
    have h' : ¬ u.kvs.length < 2 * B := by
      have : u.kvs.length = 2 * B := h
      omega
    have hlt : B - 1 < B := by omega
    refine ⟨by simp [Node.split, h'], ?_⟩
    simp [List.get?_eq_getElem?, List.getElem?_take, hlt]

/-- Witness for C9 at `B = 2`: a node with three elements is not split, a
node with four elements hands back its first half. -/
theorem c9_split_returns_first_half_witness :
    Node.split 2 (.mk [(1, 1), (2, 2), (3, 3)] []) =
      (none, .mk [(1, 1), (2, 2), (3, 3)] []) ∧
    Node.split 2 (.mk [(1, 1), (2, 2), (3, 3), (4, 4)] []) =
      (some (.mk [(1, 1), (2, 2)] []), .mk [(3, 3), (4, 4)] []) :=
  ⟨(c9_split_returns_first_half 2 (.mk [(1, 1), (2, 2), (3, 3)] [])
      (by decide)).1 (by decide),
   ((c9_split_returns_first_half 2 (.mk [(1, 1), (2, 2), (3, 3), (4, 4)] [])
      (by decide)).2 (by decide)).1⟩

/-- C10: `BTreeMap::insert` returns `true` exactly when the root node
overflowed to `2B` keys and was split during the call — equivalently,
exactly when the height of the tree grows by one — and returns `false` for
every other call, including successful insertions that do not split the
root (in which case the height is unchanged). -/
theorem c10_insert_true_iff_root_split (B k v : Nat) (t : Node) :
    (BTreeMap.insert B k v t).1 = ((add_recursive B k v t).1).isSome ∧
    ((BTreeMap.insert B k v t).1 = true ↔
      (BTreeMap.insert B k v t).2.height = t.height + 1) ∧
    ((BTreeMap.insert B k v t).1 = false →
      (BTreeMap.insert B k v t).2.height = t.height) := by
  have hmain := add_recursive_HeightOut B k v t
  rcases h : add_recursive B k v t with ⟨w?, t'⟩
  rw [h] at hmain
  cases w? with
  | none =>
    simp only [HeightOut] at hmain
    have hres : BTreeMap.insert B k v t = (false, t') := by
      unfold BTreeMap.insert; rw [h]
    refine ⟨?_, ?_, ?_⟩
    · rw [hres]; simp [h]
    · rw [hres]
      constructor
      · intro hc; simp at hc
      · intro hh
        exfalso
        have hh' : t'.height = t.height + 1 := hh
        omega
    · intro _
      rw [hres]
      exact hmain
  | some w =>
    simp only [HeightOut] at hmain
    have hrem := remove_height (B - 1) w
    have hres : BTreeMap.insert B k v t =
        (true, .mk [(Node.remove (B - 1) w).1] [(Node.remove (B - 1) w).2, t']) := by
      unfold BTreeMap.insert; rw [h]
    have hheight : (Node.mk [(Node.remove (B - 1) w).1]
        [(Node.remove (B - 1) w).2, t']).height = t.height + 1 := by
      rw [height_mk, heightList_cons, heightList_cons, heightList_nil, hrem]
      omega
    refine ⟨?_, ?_, ?_⟩
    · rw [hres]; simp [h]
    · rw [hres]
      constructor
      · intro _; exact hheight
      · intro _; rfl
    · intro hc
      rw [hres] at hc
      simp at hc

/-- Witness for C10: inserting into an empty tree stores the element
without splitting the root, so the call returns `false` and the height
stays 1. -/
theorem c10_insert_true_iff_root_split_witness :
    (BTreeMap.insert 2 5 6 (.mk [] [])).1 = false ∧
    (BTreeMap.insert 2 5 6 (.mk [] [])).2.height = (Node.mk [] []).height :=
  ⟨by decide, (c10_insert_true_iff_root_split 2 5 6 (.mk [] [])).2.2 (by decide)⟩

/-- C1: the claim that `BTreeMap::insert` returns `false` with no mutation
whenever the key already exists anywhere in the tree (and returns `true`
exactly when the key was absent and stored) fails on the code.  After the
public operations of `bugOps` the key `50` is present exactly once, yet
`insert(50, 999)` stores a second entry for it — the search path misses the
existing copy because `borrow_from_right` moved a separator key without its
child pointer — and the call still returns `false`. -/
theorem c1_insert_of_present_key_mutates :
    (bugTree.preorder.map Prod.fst).count 50 = 1 ∧
    (BTreeMap.insert 2 50 999 bugTree).1 = false ∧
    ((BTreeMap.insert 2 50 999 bugTree).2.preorder.map Prod.fst).count 50 = 2 := by
  rw [bugTree_eq]
  exact ⟨by decide, by decide, by decide⟩

/-- C3 counterexample: in the `B = 3` coverage scenario the breadth-first
snapshot after erasing key `44` has 12 leaf nodes, not 13 — the erase merges
the leaf `{44, 45}` into its left sibling `{41, 42}` together with the
pulled-down separator `43`, so the leaf layer shrinks from 13 to 12
nodes. -/
theorem c3_thirteen_leaf_nodes_refuted :
    ((BTreeMap.erase 3 44 c3tree).2.bfs.getD 2 []).length ≠ 13 := by
  rw [c3tree_eq]
  decide

/-- C3 (amended): with `B = 3`, inserting the keys `0..50` in the
interleaved order of the coverage test and then erasing key `44` returns
the stored value `45` and leaves keys `43` and `45` merged into one sibling
node with their parent-level separator `43` removed; the breadth-first
snapshot has exactly three layers — a root holding `{15, 31}`, a middle
layer of 3 nodes, and a leaf layer of 12 nodes. -/
theorem c3_layout_after_erase_44 :
    (BTreeMap.erase 3 44 c3tree).1 = some 45 ∧
    (BTreeMap.erase 3 44 c3tree).2.bfs =
      [[[(15, 16), (31, 32)]],
       [[(2, 3), (5, 6), (10, 11)], [(18, 19), (21, 22), (25, 26)],
        [(35, 36), (40, 41), (46, 47)]],
       [[(0, 1), (1, 2)], [(3, 4), (4, 5)], [(6, 7), (7, 8), (8, 9), (9, 10)],
        [(11, 12), (12, 13), (13, 14), (14, 15)], [(16, 17), (17, 18)],
        [(19, 20), (20, 21)], [(22, 23), (23, 24), (24, 25)],
        [(26, 27), (27, 28), (28, 29), (29, 30), (30, 31)],
        [(32, 33), (33, 34), (34, 35)], [(36, 37), (37, 38), (38, 39), (39, 40)],
        [(41, 42), (42, 43), (43, 44), (45, 46)],
        [(47, 48), (48, 49), (49, 50), (50, 51)]]] := by
  rw [c3tree_eq]
  exact ⟨by decide, by decide⟩

/-- C4: the round-trip claim — `find(k)` returns the stored value after any
further sequence of inserts and erases that does not erase `k` — fails on
the code.  In `bugOps` the key `50` is inserted with value `51` and never
erased, it is still in the tree, yet `find(50)` afterwards returns empty:
the rebalancing of the erase moved the separator `60` down without its
child pointer, so the search path no longer reaches the leaf `{50}`. -/
theorem c4_find_misses_present_key :
    (50, 51) ∈ bugTree.preorder ∧ BTreeMap.find 2 50 bugTree = none := by
  rw [bugTree_eq]
  exact ⟨by decide, by decide⟩

/-- C5: the claim that `erase(k)` returns the value stored under `k`
whenever `k` is present fails on the code: after `bugOps` the entry
`(50, 51)` is still in the tree, yet `erase(50)` returns empty because the
corrupted search path misses it. -/
theorem c5_erase_returns_empty_for_present_key :
    (50, 51) ∈ bugTree.preorder ∧ (BTreeMap.erase 2 50 bugTree).1 = none := by
  rw [bugTree_eq]
  exact ⟨by decide, by decide⟩

/-- C6: the order invariant — after every sequence of public inserts and
erases the preorder traversal yields strictly ascending keys — fails on the
code: after the thirteen operations of `bugOps` the preorder key sequence
contains `..., 60, 50, ...` because `borrow_from_right` moved the separator
`60` into an internal node without moving the matching child pointer. -/
theorem c6_preorder_not_ascending_after_bugOps :
    check_btree_sanity (bugTree.preorder.map Prod.fst) = false := by
  rw [bugTree_eq]
  decide

/-- C7: the occupancy invariant fails on the code: after `bugOps` the tree
contains a non-root internal node (the root's first child) with a single
key and a single child, although with `B = 2` every non-root internal node
must have between `B = 2` and `2B = 4` children. -/
theorem c7_occupancy_violated_after_bugOps :
    rootOccupancy 2 bugTree = false ∧
    (bugTree.children.getD 0 (.mk [] [])).size = 1 ∧
    (bugTree.children.getD 0 (.mk [] [])).children.length = 1 := by
  rw [bugTree_eq]
  exact ⟨by decide, by decide, by decide⟩

/-- C8: the balance invariant — all leaves at the same depth — fails on the
code: after `c8ops` the tree has one childless node at depth 1 and five
leaves at depth 2, because inserting into the node corrupted by `bugOps`
splits off a node that has lost its children. -/
theorem c8_leaves_at_different_depths :
    c8tree.leafDepths 0 = [2, 1, 2, 2, 2, 2] ∧
    allSame (c8tree.leafDepths 0) = false := by
  rw [c8tree_eq]
  exact ⟨by decide, by decide⟩
